import Mathlib

/-!
Verification development for the GPIO control service in `src/main.py`
(an Orange Pi Zero 3 GPIO HTTP API).  The Python module keeps its mutable
state in module-level globals (`line_requests`, `pin_mapping`,
`reverse_pin_mapping`, `event_queue`, `stats_history`, the persisted config
file and the three background task handles); we embed that state as a
`GlobalState` structure and each operation of the service as a pure
function on it.  The external gpiod hardware provider is modelled by an
oracle (`HwEnv`) saying which claim/read/write attempts succeed.
-/

namespace Gpio

/-- Model of the JSON scalar values that occur in configuration documents:
Python `None`, `int` and `str`.  (Other JSON payloads do not occur in the
configuration shapes the service manipulates.) -/
inductive PyVal where
  | pyNone : PyVal
  | pyInt (n : Int) : PyVal
  | pyStr (s : String) : PyVal
deriving DecidableEq, Repr

/-- Python `str()` / f-string rendering of a scalar. -/
def pyRepr : PyVal → String
  | .pyNone => "None"
  | .pyInt n => toString n
  | .pyStr s => s

/-- Python `str.lower()` (ASCII, which is all the config vocabulary uses;
written over the character list so that it evaluates by reduction). -/
def pyLowerStr (s : String) : String := String.mk (s.data.map Char.toLower)

/-- Model of the Python exceptions the embedded code can raise. -/
inductive PyExc where
  | valueError (msg : String)
  | attributeError
  | cancelledError
  | otherError (msg : String)
deriving DecidableEq, Repr

/-- Python `str(e)` of an exception (the AttributeError text is abstracted;
no claim inspects it). -/
def pyExcStr : PyExc → String
  | .valueError m => m
  | .attributeError => "AttributeError"
  | .cancelledError => "CancelledError"
  | .otherError m => m

/-- Python `v.lower()`: succeeds on strings, raises `AttributeError`
otherwise. -/
def pyLower : PyVal → Except PyExc String
  | .pyStr s => .ok (pyLowerStr s)
  | _ => .error .attributeError

/-- One entry of the `pins` list of a configuration document; each field is
`none` when the key is absent from the JSON object. -/
structure PinEntry where
  num : Option PyVal
  chip : Option PyVal
  line : Option PyVal
  direction : Option PyVal
  bias : Option PyVal
  name : Option PyVal
deriving DecidableEq, Repr

/-- A configuration document.  `noPins` models a document whose `pins` key
is absent (or not a list — both fail validation at the same first check).
`withPins` models a document with a `pins` list. -/
inductive ConfigDoc where
  | noPins
  | withPins (pins : List PinEntry)
deriving DecidableEq, Repr

/-- `config.get("pins", [])` as used by `init_gpios`. -/
def pinsOf : ConfigDoc → List PinEntry
  | .noPins => []
  | .withPins ps => ps

/-- Field access `pin[f]` / `pin.get(f)` on an entry. -/
def pinField (p : PinEntry) (f : String) : Option PyVal :=
  if f = "num" then p.num
  else if f = "chip" then p.chip
  else if f = "line" then p.line
  else if f = "direction" then p.direction
  else if f = "bias" then p.bias
  else p.name

/-- The required fields checked by `validate_gpio_config`, in source
order. -/
def required_fields : List String := ["num", "chip", "line", "direction", "bias"]

/-- Rendering of `pin.get("num", "unknown")` used in the missing-field
error message. -/
def numOrUnknown (p : PinEntry) : String :=
  match p.num with
  | some v => pyRepr v
  | none => "unknown"

def valid_directions : List String := ["input", "output", "disabled"]

def valid_biases : List String := ["none", "pull-up", "pull-down", "disabled"]

/-- The per-pin body of `validate_gpio_config` (src/main.py lines 180-204):
required fields, integer types, duplicate pin number, duplicate hardware
mapping, then direction and bias vocabulary, in that order; returns the
updated `seen_nums` / `seen_hardware` sets (as lists). -/
def checkPin (seenNums : List Int) (seenHw : List (Int × Int)) (p : PinEntry) :
    Except PyExc (List Int × List (Int × Int)) :=
  match required_fields.find? (fun f => (pinField p f).isNone) with
  | some f =>
      .error (.valueError ("Pin " ++ numOrUnknown p ++ " is missing required field: " ++ f))
  | none =>
    match p.num, p.chip, p.line with
    | some (.pyInt n), some (.pyInt c), some (.pyInt l) =>
      if seenNums.contains n then
        .error (.valueError ("Duplicate Pin number detected: " ++ toString n))
      else
        let seenNums := seenNums ++ [n]
        if seenHw.contains (c, l) then
          .error (.valueError ("Duplicate hardware mapping detected: Chip " ++
            toString c ++ ", Line " ++ toString l))
        else
          let seenHw := seenHw ++ [(c, l)]
          match pyLower ((p.direction).getD .pyNone) with
          | .error e => .error e
          | .ok dirStr =>
            if valid_directions.contains dirStr then
              match pyLower ((p.bias).getD .pyNone) with
              | .error e => .error e
              | .ok biasStr =>
                if valid_biases.contains biasStr then
                  .ok (seenNums, seenHw)
                else
                  .error (.valueError ("Invalid bias for Pin " ++ toString n ++ ": " ++
                    pyRepr ((p.bias).getD .pyNone)))
            else
              .error (.valueError ("Invalid direction for Pin " ++ toString n ++ ": " ++
                pyRepr ((p.direction).getD .pyNone)))
    | _, _, _ =>
      .error (.valueError ("Pin " ++ pyRepr ((p.num).getD .pyNone) ++
        " chip/line/num must be integers."))

/-- The `for pin in config["pins"]` loop of `validate_gpio_config`. -/
def validateLoop : List PinEntry → List Int → List (Int × Int) → Except PyExc Bool
  | [], _, _ => .ok true
  | p :: rest, sn, sh =>
    match checkPin sn sh p with
    | .error e => .error e
    | .ok (sn2, sh2) => validateLoop rest sn2 sh2

/-- `validate_gpio_config` (src/main.py lines 170-206): raises `ValueError`
on the first violation, returns `True` otherwise. -/
def validate_gpio_config : ConfigDoc → Except PyExc Bool
  | .noPins => .error (.valueError "Config must contain a \x27pins\x27 list.")
  | .withPins ps => validateLoop ps [] []

/-! ### Global state and the hardware provider oracle -/

/-- `gpiod.line.Direction`. -/
inductive Direction where
  | INPUT | OUTPUT
deriving DecidableEq, Repr

/-- `gpiod.line.Bias`. -/
inductive Bias where
  | AS_IS | PULL_UP | PULL_DOWN | DISABLED
deriving DecidableEq, Repr

/-- `gpiod.line.Edge`. -/
inductive Edge where
  | NONE | RISING | FALLING | BOTH
deriving DecidableEq, Repr

/-- A key of the `line_requests` dictionary: `(chip_path, line_offset)`.
The offset is carried as a `PyVal` because the code stores whatever the
config held (`pin_cfg.get("line")`). -/
abbrev LineKey := String × PyVal

/-- A live `gpiod.LineRequest` handle.  `hid` is a fresh identity issued by
the provider model at claim time (used to state that each handle is
released exactly once); `value` is the electrical value the line currently
carries (outputs start inactive per `settings.output_value = Value.INACTIVE`,
inputs start at the value the oracle reports at claim time; `get_value`
reads it and `set_value` overwrites it). -/
structure ReqHandle where
  hid : Nat
  dir : Direction
  bias : Bias
  edge : Edge
  value : Int
deriving DecidableEq, Repr

/-- A queued edge event (the dict built at src/main.py lines 145-149).
`pin` is a `PyVal` because the reverse lookup falls back to the string
`"unknown"`. -/
structure Event where
  pin : PyVal
  event : String
  timestamp : String
deriving DecidableEq, Repr

/-- One sample of the `stats_history` buffer.  The temperature and load are
carried as integers (scaled readings); none of the buffer properties depend
on the numeric representation. -/
structure Sample where
  time : String
  temp : Int
  load : Int
deriving DecidableEq, Repr

inductive LogLevel where
  | debugL | infoL | warnL | errorL
deriving DecidableEq, Repr

structure LogEntry where
  level : LogLevel
  msg : String
deriving DecidableEq, Repr

/-- Status of an asyncio task handle: `absent` is Python `None`; a done
task is either cancelled, finished with an uncaught exception, or finished
cleanly.  `gen` distinguishes task instances across restarts. -/
inductive TaskStatus where
  | absent
  | running (gen : Nat)
  | doneCancelled (gen : Nat)
  | doneError (gen : Nat) (msg : String)
  | doneClean (gen : Nat)
deriving DecidableEq, Repr

/-- Python truthiness of the handle variable (`None` is falsy). -/
def taskTruthy : TaskStatus → Bool
  | .absent => false
  | _ => true

/-- `task.done()`. -/
def taskDone : TaskStatus → Bool
  | .running _ => false
  | .absent => false
  | _ => true

/-- `task.cancel()`: a running task terminates as cancelled, anything else
is unaffected. -/
def cancelTask : TaskStatus → TaskStatus
  | .running g => .doneCancelled g
  | t => t

/-- Python dict lookup `d.get(k)` on an insertion-ordered association
list. -/
def alistGet {α β : Type} [DecidableEq α] : List (α × β) → α → Option β
  | [], _ => none
  | (k, v) :: rest, key => if k = key then some v else alistGet rest key

/-- Python dict assignment `d[k] = v`: overwrite in place if the key
exists, else append. -/
def alistSet {α β : Type} [DecidableEq α] : List (α × β) → α → β → List (α × β)
  | [], key, v => [(key, v)]
  | (k, w) :: rest, key, v =>
    if k = key then (k, v) :: rest else (k, w) :: alistSet rest key v

/-- The module-level mutable state of src/main.py, plus a hardware-model
ledger (`releaseTrace`, `nextHandle`) recording which handles have been
released and the next fresh handle identity, and a scheduler counter
`nextTaskGen` issuing fresh task instances. -/
structure GlobalState where
  line_requests : List (LineKey × ReqHandle)
  pin_mapping : List (PyVal × LineKey)
  reverse_pin_mapping : List (LineKey × PyVal)
  event_queue : List Event
  stats_history : List Sample
  configFile : Option ConfigDoc
  defaultConfigFile : Option ConfigDoc
  interrupt_task : TaskStatus
  stats_task : TaskStatus
  log : List LogEntry
  releaseTrace : List Nat
  nextHandle : Nat
  nextTaskGen : Nat
deriving DecidableEq, Repr

/-- The hardware provider oracle: which claims succeed
(`gpiod.request_lines`), the text of a failed claim's exception, the
electrical value an input line carries when claimed, and whether
`get_value` / `set_value` on a claimed line raise (carrying the exception
text). -/
structure HwEnv where
  claimOk : LineKey → Bool
  claimErr : LineKey → String
  inputVal : LineKey → Int
  readErr : LineKey → Option String
  writeErr : LineKey → Option String

/-- Rendering of a dict key in debug log lines (Python tuple repr). -/
def keyRepr (k : LineKey) : String :=
  "(\x27" ++ k.1 ++ "\x27, " ++ pyRepr k.2 ++ ")"

def EVENT_QUEUE_MAX_SIZE : Nat := 1000

def STATS_HISTORY_MAX_POINTS : Nat := 360

/-! ### Lifecycle manager: release, initialize, hot reload -/

/-- `release_gpios` (src/main.py lines 208-224): cancel the interrupt task
if present, release every claimed handle (each handle of the table is
released once, appended to the provider ledger), then clear all three
dictionaries. -/
def release_gpios (s : GlobalState) : GlobalState :=
  let s1 : GlobalState := { s with log := s.log ++ [⟨.infoL, "Releasing all GPIO lines..."⟩] }
  let it := if taskTruthy s1.interrupt_task then cancelTask s1.interrupt_task else s1.interrupt_task
  let s2 : GlobalState := { s1 with interrupt_task := it }
  let trace := s2.releaseTrace ++ s2.line_requests.map (fun kv => kv.2.hid)
  let relLog := s2.line_requests.map (fun kv => (⟨.debugL, "Released line " ++ keyRepr kv.1⟩ : LogEntry))
  let s3 : GlobalState := { s2 with releaseTrace := trace, log := s2.log ++ relLog }
  { s3 with line_requests := [], pin_mapping := [], reverse_pin_mapping := [] }

/-- `ensure_config_exists` (src/main.py lines 226-238): copy the default
template over the live file when the latter is missing; `false` when
neither exists. -/
def ensure_config_exists (s : GlobalState) : Bool × GlobalState :=
  match s.configFile with
  | some _ => (true, s)
  | none =>
    match s.defaultConfigFile with
    | some d =>
      let copyMsg : LogEntry := ⟨.infoL, "User config not found, copying from gpio_config.default.json"⟩
      (true, { s with configFile := some d, log := s.log ++ [copyMsg] })
    | none =>
      let missMsg : LogEntry := ⟨.errorL, "Neither gpio_config.json nor gpio_config.default.json found!"⟩
      (false, { s with log := s.log ++ [missMsg] })

/-- The body of the `for pin_cfg in config.get("pins", [])` loop of
`init_gpios` (src/main.py lines 260-308) for one entry: skip disabled
pins; otherwise record the pin in both mappings, then attempt the hardware
claim; a failed claim is logged and leaves the mappings as they are.
The only Python exception this body can raise is the `AttributeError` of
`.lower()` on a non-string direction/bias (never reached for validated
configurations). -/
def initPin (env : HwEnv) (s : GlobalState) (p : PinEntry) : Except PyExc GlobalState :=
  let pin_num := (p.num).getD .pyNone
  match pyLower ((p.direction).getD (.pyStr "output")) with
  | .error e => .error e
  | .ok direction_str =>
    if direction_str = "disabled" then
      let skipMsg : LogEntry := ⟨.infoL, "Pin " ++ pyRepr pin_num ++ " is disabled, skipping hardware initialization."⟩
      .ok { s with log := s.log ++ [skipMsg] }
    else
      let chip_num := (p.chip).getD .pyNone
      let line_offset := (p.line).getD .pyNone
      match pyLower ((p.bias).getD (.pyStr "none")) with
      | .error e => .error e
      | .ok bias_str =>
        let chip_path := "/dev/gpiochip" ++ pyRepr chip_num
        let key : LineKey := (chip_path, line_offset)
        let pm := alistSet s.pin_mapping pin_num key
        let rpm := alistSet s.reverse_pin_mapping key pin_num
        let s : GlobalState := { s with pin_mapping := pm, reverse_pin_mapping := rpm }
        let dir_val := if direction_str = "output" then Direction.OUTPUT else Direction.INPUT
        let bias_val :=
          if bias_str = "pull-up" then Bias.PULL_UP
          else if bias_str = "pull-down" then Bias.PULL_DOWN
          else if bias_str = "disabled" then Bias.DISABLED
          else Bias.AS_IS
        let edge_val := if dir_val = Direction.INPUT then Edge.BOTH else Edge.NONE
        if env.claimOk key then
          let initVal : Int := if dir_val = Direction.OUTPUT then 0 else env.inputVal key
          let h : ReqHandle := ⟨s.nextHandle, dir_val, bias_val, edge_val, initVal⟩
          let okMsg : LogEntry := ⟨.infoL, "Successfully requested Pin " ++ pyRepr pin_num ++ " (" ++ direction_str ++ ") on " ++ chip_path⟩
          .ok { s with line_requests := alistSet s.line_requests key h, nextHandle := s.nextHandle + 1, log := s.log ++ [okMsg] }
        else
          let failMsg : LogEntry := ⟨.errorL, "Failed to request Pin " ++ pyRepr pin_num ++ " (" ++ direction_str ++ ") on " ++ chip_path ++ ": " ++ env.claimErr key⟩
          .ok { s with log := s.log ++ [failMsg] }

/-- The claim loop of `init_gpios`. -/
def initLoop (env : HwEnv) : List PinEntry → GlobalState → Except PyExc GlobalState
  | [], s => .ok s
  | p :: rest, s =>
    match initPin env s p with
    | .error e => .error e
    | .ok s2 => initLoop env rest s2

/-- `init_gpios` (src/main.py lines 241-308): ensure the config file
exists, load it, and claim each configured pin in document order. -/
def init_gpios (env : HwEnv) (s : GlobalState) : Except PyExc GlobalState :=
  let s0 : GlobalState := { s with log := s.log ++ [⟨.infoL, "Initialising GPIOs..."⟩] }
  match ensure_config_exists s0 with
  | (false, s1) => .ok s1
  | (true, s1) =>
    match s1.configFile with
    | none => .ok { s1 with log := s1.log ++ [⟨.errorL, "Error: gpio_config.json not found."⟩] }
    | some cfg => initLoop env (pinsOf cfg) s1

/-! ### HTTP-facing operations -/

/-- Result of one endpoint call: a success payload or an `HTTPException`
with status code and detail. -/
inductive HttpResult where
  | okMsg (status : String) (message : String)
  | okSet (pin_num : Int) (state : Int)
  | okToggle (pin_num : Int) (state : Int)
  | okConfig (config : ConfigDoc)
  | okStatus (entries : List (PinEntry × Bool × Int))
  | okEvents (events : List Event)
  | httpError (code : Nat) (detail : String)
deriving DecidableEq, Repr

/-- `GET /config` (src/main.py lines 1138-1147). -/
def get_config (s : GlobalState) : HttpResult :=
  match s.configFile with
  | none => .httpError 404 "Config file missing"
  | some c => .okConfig c

/-- One entry of the `GET /pins/status` response: the config entry with
`active` and `current_state` added (src/main.py lines 553-574). -/
def pinStatusEntry (env : HwEnv) (s : GlobalState) (p : PinEntry) : PinEntry × Bool × Int :=
  let pin_num := (p.num).getD .pyNone
  match alistGet s.pin_mapping pin_num with
  | none => (p, false, -1)
  | some mapping =>
    match alistGet s.line_requests mapping with
    | none => (p, false, -1)
    | some h =>
      match env.readErr mapping with
      | some _ => (p, true, -1)
      | none => (p, true, if h.value = 1 then 1 else 0)

/-- `GET /pins/status` (src/main.py lines 546-575): entries for every
config pin whose raw `direction` value is not the string `"disabled"`. -/
def get_status (env : HwEnv) (s : GlobalState) : HttpResult :=
  match s.configFile with
  | none => .httpError 404 "Config missing"
  | some cfg =>
    .okStatus (((pinsOf cfg).filter (fun p => p.direction ≠ some (.pyStr "disabled"))).map (pinStatusEntry env s))

/-- `POST /pins/set` (src/main.py lines 585-620), after body parsing: a pin
whose number is not in `pin_mapping`, or whose address is not in
`line_requests`, is answered `404 "Pin not active"`; a failing hardware
write is answered `500`; otherwise the line is written and a success
payload returned. -/
def set_pin (env : HwEnv) (s : GlobalState) (pin_num : Int) (state : Int) :
    HttpResult × GlobalState :=
  match alistGet s.pin_mapping (.pyInt pin_num) with
  | none => (.httpError 404 "Pin not active", s)
  | some mapping =>
    match alistGet s.line_requests mapping with
    | none => (.httpError 404 "Pin not active", s)
    | some h =>
      let val : Int := if state = 1 then 1 else 0
      match env.writeErr mapping with
      | some m => (.httpError 500 m, s)
      | none =>
        (.okSet pin_num state, { s with line_requests := alistSet s.line_requests mapping { h with value := val } })

/-- `POST /pins/toggle/{pin_num}` (src/main.py lines 622-634): same
lookup; then read the current value, write its logical inverse, and return
the new value. -/
def toggle_pin (env : HwEnv) (s : GlobalState) (pin_num : Int) :
    HttpResult × GlobalState :=
  match alistGet s.pin_mapping (.pyInt pin_num) with
  | none => (.httpError 404 "Pin not active", s)
  | some mapping =>
    match alistGet s.line_requests mapping with
    | none => (.httpError 404 "Pin not active", s)
    | some h =>
      match env.readErr mapping with
      | some m => (.httpError 500 m, s)
      | none =>
        let current := h.value
        let new_state : Int := if current = 1 then 0 else 1
        match env.writeErr mapping with
        | some m => (.httpError 500 m, s)
        | none =>
          (.okToggle pin_num new_state, { s with line_requests := alistSet s.line_requests mapping { h with value := new_state } })

/-- `POST /config/update` (src/main.py lines 1149-1176).  Validation
errors are turned into `HTTPException(400)` by the inner handler, which —
since `update_config` has no `except HTTPException: raise` clause — is
then caught by the outer `except Exception` and re-raised as
`HTTPException(500, str(exc))` (starlette renders the inner exception as
`"400: <detail>"`).  Either way nothing is persisted and no hardware is
touched.  On success: persist the document, hot-reload (release all, then
re-initialize), and start a fresh interrupt-monitor task. -/
def update_config (env : HwEnv) (config : ConfigDoc) (s : GlobalState) :
    HttpResult × GlobalState :=
  match validate_gpio_config config with
  | .error e =>
    match e with
    | .valueError m =>
      let entry : LogEntry := ⟨.errorL, "Config update failed: 400: " ++ m⟩
      (.httpError 500 ("400: " ++ m), { s with log := s.log ++ [entry] })
    | _ =>
      let entry : LogEntry := ⟨.errorL, "Config update failed: " ++ pyExcStr e⟩
      (.httpError 500 (pyExcStr e), { s with log := s.log ++ [entry] })
  | .ok _ =>
    let reloadMsg : LogEntry := ⟨.infoL, "Configuration updated via API. Reloading hardware..."⟩
    let s1 : GlobalState := { s with configFile := some config, log := s.log ++ [reloadMsg] }
    let s2 := release_gpios s1
    match init_gpios env s2 with
    | .error e =>
      let entry : LogEntry := ⟨.errorL, "Config update failed: " ++ pyExcStr e⟩
      (.httpError 500 (pyExcStr e), { s2 with log := s2.log ++ [entry] })
    | .ok s3 =>
      let s4 : GlobalState := { s3 with interrupt_task := TaskStatus.running s3.nextTaskGen, nextTaskGen := s3.nextTaskGen + 1 }
      (.okMsg "success" "Configuration updated and hardware reloaded", s4)

/-! ### Edge monitor and event queue -/

/-- The per-event block of `monitor_interrupts` (src/main.py lines
138-151): resolve the owning pin through the reverse mapping (falling back
to `"unknown"`), log the interrupt, then `put_nowait`; a full queue
(`qsize >= maxsize`) raises `QueueFull`, which is caught and logged as a
warning — the event is dropped and nothing else changes. -/
def monitor_enqueue (s : GlobalState) (key : LineKey) (kind : Edge) (ts : String) :
    GlobalState :=
  let pin_num := (alistGet s.reverse_pin_mapping key).getD (.pyStr "unknown")
  let event_type := if kind = Edge.RISING then "Rising" else "Falling"
  let seenMsg : LogEntry := ⟨.infoL, "Interrupt on Pin " ++ pyRepr pin_num ++ ": " ++ event_type⟩
  let s1 : GlobalState := { s with log := s.log ++ [seenMsg] }
  if s1.event_queue.length < EVENT_QUEUE_MAX_SIZE then
    { s1 with event_queue := s1.event_queue ++ [⟨pin_num, event_type, ts⟩] }
  else
    let dropMsg : LogEntry := ⟨.warnL, "Event queue full, dropping event for Pin " ++ pyRepr pin_num⟩
    { s1 with log := s1.log ++ [dropMsg] }

/-- A whole sweep of edge events produced by the monitor, enqueued in
order. -/
def enqueueMany (s : GlobalState) : List (LineKey × Edge × String) → GlobalState
  | [] => s
  | (key, kind, ts) :: rest => enqueueMany (monitor_enqueue s key kind ts) rest

/-- `GET /events` (src/main.py lines 577-583): drain the whole queue and
return the drained events. -/
def get_events (s : GlobalState) : List Event × GlobalState :=
  (s.event_queue, { s with event_queue := [] })

/-! ### Sample collector -/

/-- `collections.deque(maxlen).append`: append on the right, discarding
from the left whatever exceeds the capacity. -/
def dequeAppend (maxlen : Nat) (xs : List Sample) (x : Sample) : List Sample :=
  let ys := xs ++ [x]
  ys.drop (ys.length - maxlen)

/-- Outcome of reading one system source in `monitor_stats`: the source
file may be absent, readable, fail with an `IOError`/`ValueError` (caught
by the inner handler of src/main.py lines 96-109), or fail with any other
exception (which escapes to the outer handler). -/
inductive SrcOutcome where
  | srcAbsent
  | srcOk (v : Int)
  | srcFailCaught (m : String)
  | srcFailOther (m : String)
deriving DecidableEq, Repr

/-- The CPU-temperature read of one `monitor_stats` iteration
(src/main.py lines 94-100): defaults to `0`, warns on a caught failure,
raises otherwise. -/
def stats_read_temp (tempSrc : SrcOutcome) (s : GlobalState) :
    Except (PyExc × GlobalState) (Int × GlobalState) :=
  match tempSrc with
  | .srcAbsent => .ok (0, s)
  | .srcOk v => .ok (v, s)
  | .srcFailCaught m =>
    .ok (0, { s with log := s.log ++ [⟨.warnL, "Failed to read CPU temperature: " ++ m⟩] })
  | .srcFailOther m => .error (.otherError m, s)

/-- The load-average read of one `monitor_stats` iteration (src/main.py
lines 102-109). -/
def stats_read_load (loadSrc : SrcOutcome) (s : GlobalState) :
    Except (PyExc × GlobalState) (Int × GlobalState) :=
  match loadSrc with
  | .srcAbsent => .ok (0, s)
  | .srcOk v => .ok (v, s)
  | .srcFailCaught m =>
    .ok (0, { s with log := s.log ++ [⟨.warnL, "Failed to read load average: " ++ m⟩] })
  | .srcFailOther m => .error (.otherError m, s)

/-- The body of one `monitor_stats` iteration before any handler
(src/main.py lines 92-118): read both gauges, then append the sample to
the bounded history.  `appendFault` injects an arbitrary unexpected
exception at the append (the body contains no await point, so a
`CancelledError` cannot be raised here; the theorems carry that as a
hypothesis).  Errors carry the state reached so far, since logging is an
immediate side effect. -/
def stats_body_inner (tempSrc loadSrc : SrcOutcome) (appendFault : Option PyExc)
    (now : String) (s : GlobalState) : Except (PyExc × GlobalState) GlobalState :=
  match stats_read_temp tempSrc s with
  | .error es => .error es
  | .ok (cpu_temp, s1) =>
    match stats_read_load loadSrc s1 with
    | .error es => .error es
    | .ok (load_1m, s2) =>
      match appendFault with
      | some e => .error (e, s2)
      | none =>
        .ok { s2 with stats_history := dequeAppend STATS_HISTORY_MAX_POINTS s2.stats_history ⟨now, cpu_temp, load_1m⟩ }

/-- Python `except Exception`: catches every exception except
`CancelledError` (which derives from `BaseException` only). -/
def catchException (handler : PyExc → GlobalState → GlobalState) :
    Except (PyExc × GlobalState) GlobalState → Except (PyExc × GlobalState) GlobalState
  | .ok s => .ok s
  | .error (e, s) =>
    if e = .cancelledError then .error (e, s) else .ok (handler e s)

/-- One full iteration of the `while True` loop of `monitor_stats`
(src/main.py lines 91-121): the body wrapped in the
`except Exception` handler that logs and continues. -/
def monitor_stats_iteration (tempSrc loadSrc : SrcOutcome) (appendFault : Option PyExc)
    (now : String) (s : GlobalState) : Except (PyExc × GlobalState) GlobalState :=
  catchException
    (fun e s2 => { s2 with log := s2.log ++ [⟨.errorL, "Stats monitor error: " ++ pyExcStr e⟩] })
    (stats_body_inner tempSrc loadSrc appendFault now s)

/-- One iteration followed by the `await asyncio.sleep` (src/main.py line
123), the only point at which a cancellation signal can be delivered. -/
def monitor_stats_step (tempSrc loadSrc : SrcOutcome) (appendFault : Option PyExc)
    (now : String) (cancelAtSleep : Bool) (s : GlobalState) :
    Except (PyExc × GlobalState) GlobalState :=
  match monitor_stats_iteration tempSrc loadSrc appendFault now s with
  | .error es => .error es
  | .ok s2 => if cancelAtSleep then .error (.cancelledError, s2) else .ok s2

/-! ### Task supervisor and health -/

/-- The per-worker block of `monitor_task_health` (src/main.py lines
319-339): when the handle is absent or the task is done, log the cause
(`exception()` unless `cancelled()`; an exception logs an error, anything
else logs the stopped-unexpectedly warning), then launch and store a fresh
instance. -/
def superviseWorker (crashedMsg stoppedMsg restartingMsg : String)
    (t : TaskStatus) (gen : Nat) (log : List LogEntry) :
    TaskStatus × Nat × List LogEntry :=
  if t = .absent ∨ taskDone t then
    let log2 :=
      if taskTruthy t ∧ taskDone t then
        match t with
        | .doneError _ m => log ++ [⟨.errorL, crashedMsg ++ m⟩]
        | _ => log ++ [⟨.warnL, stoppedMsg⟩]
      else log
    (.running gen, gen + 1, log2 ++ [⟨.infoL, restartingMsg⟩])
  else (t, gen, log)

/-- One iteration of the `monitor_task_health` loop (src/main.py lines
315-339): supervise the interrupt monitor, then the stats monitor. -/
def monitor_task_health_iteration (s : GlobalState) : GlobalState :=
  let r1 := superviseWorker "Interrupt monitor crashed with: " "Interrupt monitor stopped unexpectedly" "Restarting interrupt monitor..." s.interrupt_task s.nextTaskGen s.log
  let r2 := superviseWorker "Stats monitor crashed with: " "Stats monitor stopped unexpectedly" "Restarting stats monitor..." s.stats_task r1.2.1 r1.2.2
  { s with interrupt_task := r1.1, stats_task := r2.1, nextTaskGen := r2.2.1, log := r2.2.2 }

/-- The `gpio_status` object of the `GET /health` response (src/main.py
lines 534-538) — the only part of the health snapshot computed from the
program state. -/
structure GpioHealth where
  initialized : Bool
  claimed_pins_count : Nat
  interrupt_monitor_running : Bool
deriving DecidableEq, Repr

/-- `GET /health`, `gpio_status` part: `initialized` iff some line is
claimed; the pin count; and `interrupt_task is not None and not
interrupt_task.done()`. -/
def health_gpio_status (s : GlobalState) : GpioHealth :=
  { initialized := s.line_requests.length != 0,
    claimed_pins_count := s.line_requests.length,
    interrupt_monitor_running := taskTruthy s.interrupt_task && !taskDone s.interrupt_task }

/-! ### Derived views and concrete fixtures used by the theorems -/

/-- A fully-populated pin entry, as the shipped configurations write them. -/
def mkPinEntry (n c l : Int) (dir bias : String) : PinEntry :=
  ⟨some (.pyInt n), some (.pyInt c), some (.pyInt l), some (.pyStr dir), some (.pyStr bias), none⟩

/-- The lower-cased direction of an entry (meaningful for entries that
passed validation, where `direction` is always a string). -/
def pDirStr (p : PinEntry) : String :=
  match p.direction with
  | some (.pyStr d) => pyLowerStr d
  | _ => ""

/-- The pin number of a validated entry. -/
def pNumI (p : PinEntry) : Int :=
  match p.num with
  | some (.pyInt n) => n
  | _ => 0

/-- The `(chip, line)` integers of a validated entry. -/
def pHwI (p : PinEntry) : Int × Int :=
  (match p.chip with | some (.pyInt c) => c | _ => 0,
   match p.line with | some (.pyInt l) => l | _ => 0)

/-- The `(chip_path, line_offset)` dictionary key `init_gpios` computes for
an entry. -/
def pKey (p : PinEntry) : LineKey :=
  ("/dev/gpiochip" ++ pyRepr ((p.chip).getD .pyNone), (p.line).getD .pyNone)

/-- Whether `pat` is a leading segment of `s`. -/
def listStarts : List Char → List Char → Bool
  | [], _ => true
  | _ :: _, [] => false
  | a :: as, b :: bs => a == b && listStarts as bs

/-- Whether `pat` occurs contiguously anywhere in `s`. -/
def listOccurs : List Char → List Char → Bool
  | pat, [] => pat.isEmpty
  | pat, c :: rest => listStarts pat (c :: rest) || listOccurs pat rest

/-- Substring containment on strings (whether `sub` occurs in `s`). -/
def strMentions (s sub : String) : Bool := listOccurs sub.toList s.toList

/-- The well-formedness facts validation guarantees for each entry. -/
def PinShape (p : PinEntry) : Prop :=
  (∃ n, p.num = some (.pyInt n)) ∧ (∃ c, p.chip = some (.pyInt c)) ∧
  (∃ l, p.line = some (.pyInt l)) ∧
  (∃ d, p.direction = some (.pyStr d)) ∧ (∃ b, p.bias = some (.pyStr b))

/-- Decimal value of a digit character. -/
def decDigit (c : Char) : Nat := c.toNat - 48

/-- Decimal value of a digit string (most significant first). -/
def decNum (l : List Char) : Nat := l.foldl (fun a c => a * 10 + decDigit c) 0

/-- An arbitrary fixed edge event used to build full-queue fixtures. -/
def ev0 : Event := ⟨.pyInt 3, "Rising", "0"⟩

/-- A state whose event queue is exactly at capacity. -/
def c4FullState : GlobalState :=
  ⟨[], [], [], List.replicate EVENT_QUEUE_MAX_SIZE ev0, [], none, none, .absent, .absent,
   [], [], 0, 0⟩

/-- A provider oracle where every claim succeeds and no read/write fails. -/
def envAllOk : HwEnv :=
  ⟨fun _ => true, fun _ => "", fun _ => 0, fun _ => none, fun _ => none⟩

/-- A provider oracle where every claim attempt fails. -/
def envAllFail : HwEnv :=
  ⟨fun _ => false, fun _ => "Device or resource busy", fun _ => 0, fun _ => none, fun _ => none⟩

/-- A state for the C6 counterexample: the active configuration declares
pin 9 (whose hardware claim failed, so it is in `pin_mapping` but not in
`line_requests`) and does not declare pin 7 at all. -/
def c6State : GlobalState :=
  ⟨[], [(.pyInt 9, ("/dev/gpiochip0", .pyInt 6))], [(("/dev/gpiochip0", .pyInt 6), .pyInt 9)],
   [], [], some (.withPins [mkPinEntry 9 0 6 "output" "none"]), none, .absent, .absent,
   [], [], 1, 0⟩

/-- A state whose stats-collector task has died with an uncaught error. -/
def c9StateDead : GlobalState :=
  ⟨[], [], [], [], [], none, none, .running 0, .doneError 1 "boom", [], [], 0, 2⟩

/-- The same state with a healthy stats-collector task. -/
def c9StateAlive : GlobalState :=
  ⟨[], [], [], [], [], none, none, .running 0, .running 1, [], [], 0, 2⟩

/-- An empty initial state holding configuration `cfg`. -/
def freshState (cfg : ConfigDoc) : GlobalState :=
  ⟨[], [], [], [], [], some cfg, none, .absent, .absent, [], [], 0, 0⟩

/-- The two-pins-one-wire document of the C5 scenario. -/
def c5cfg : ConfigDoc :=
  .withPins [mkPinEntry 7 0 5 "output" "none", mkPinEntry 8 0 5 "input" "pull-up"]

/-- The duplicate-hardware message the validator produces for chip 0,
line 5. -/
def c5msg : String := "Duplicate hardware mapping detected: Chip 0, Line 5"

/-- A state whose interrupt monitor has crashed and whose stats collector
was cancelled. -/
def c9WitState : GlobalState :=
  ⟨[], [], [], [], [], none, none, .doneError 0 "io fault", .doneCancelled 1, [], [], 0, 2⟩

/-- The configuration used by the C1 fixtures: one output pin whose claim
will fail, and one disabled pin. -/
def c1cfg : ConfigDoc :=
  .withPins [mkPinEntry 7 0 5 "output" "none", mkPinEntry 9 0 6 "disabled" "none"]

/-- The state `init_gpios` produces from `freshState c1cfg` when every
claim fails: pin 7 sits in the registry though unclaimed; pin 9 is
nowhere. -/
def c1FailedState : GlobalState :=
  ⟨[], [(.pyInt 7, ("/dev/gpiochip0", .pyInt 5))], [(("/dev/gpiochip0", .pyInt 5), .pyInt 7)],
   [], [], some c1cfg, none, .absent, .absent,
   [⟨.infoL, "Initialising GPIOs..."⟩,
    ⟨.errorL, "Failed to request Pin 7 (output) on /dev/gpiochip0: Device or resource busy"⟩,
    ⟨.infoL, "Pin 9 is disabled, skipping hardware initialization."⟩],
   [], 0, 0⟩

/-- A claimed output handle at value 0, as `init_gpios` creates them. -/
def c7Handle : ReqHandle := ⟨0, .OUTPUT, .AS_IS, .NONE, 0⟩

/-- A state with one claimed output pin (pin 7 on chip 0, line 5). -/
def c7State : GlobalState :=
  ⟨[(("/dev/gpiochip0", .pyInt 5), c7Handle)],
   [(.pyInt 7, ("/dev/gpiochip0", .pyInt 5))],
   [(("/dev/gpiochip0", .pyInt 5), .pyInt 7)],
   [], [], some (.withPins [mkPinEntry 7 0 5 "output" "none"]), none,
   .running 0, .running 1, [], [], 1, 2⟩

/-! ### Association-list lemmas -/

theorem alistGet_set_self {α β : Type} [DecidableEq α] (l : List (α × β)) (k : α) (v : β) :
    alistGet (alistSet l k v) k = some v := by
  induction l with
  | nil => simp [alistGet, alistSet]
  | cons kv rest ih =>
    by_cases h : kv.1 = k
    · simp [alistSet, alistGet, h]
    · simpa [alistSet, alistGet, h] using ih

theorem alistGet_set_ne {α β : Type} [DecidableEq α] (l : List (α × β)) (k k2 : α) (v : β)
    (h : k ≠ k2) : alistGet (alistSet l k v) k2 = alistGet l k2 := by
  induction l with
  | nil => simp [alistGet, alistSet, h]
  | cons kv rest ih =>
    by_cases hk : kv.1 = k
    · simp [alistSet, alistGet, hk, h]
    · simp only [alistSet, if_neg hk, alistGet]
      by_cases hk2 : kv.1 = k2 <;> simp [hk2, ih]

theorem alistGet_set_isSome {α β : Type} [DecidableEq α] (l : List (α × β)) (k k2 : α) (v : β) :
    (alistGet (alistSet l k v) k2).isSome = true ↔
      k2 = k ∨ (alistGet l k2).isSome = true := by
  by_cases h : k2 = k
  · subst h
    simp [alistGet_set_self]
  · rw [alistGet_set_ne l k k2 v (fun hk => h hk.symm)]
    simp [h]

theorem alistSet_mem {α β : Type} [DecidableEq α] (l : List (α × β)) (k : α) (v : β)
    (kv : α × β) (h : kv ∈ alistSet l k v) : kv ∈ l ∨ kv = (k, v) := by
  induction l with
  | nil => simpa [alistSet] using h
  | cons hd rest ih =>
    by_cases hk : hd.1 = k
    · simp only [alistSet, if_pos hk, List.mem_cons] at h
      rcases h with h | h
      · right; rw [h, hk]
      · left; exact List.mem_cons_of_mem hd h
    · simp only [alistSet, if_neg hk, List.mem_cons] at h
      rcases h with h | h
      · left; exact h ▸ List.mem_cons_self hd rest
      · rcases ih h with h2 | h2
        · left; exact List.mem_cons_of_mem hd h2
        · right; exact h2

/-! ### C8: bounded sample history -/

/-- C8: the SampleHistory buffer (`stats_history`, a deque with maxlen
360) never exceeds its capacity; appending at capacity evicts exactly the
oldest sample; below capacity an append preserves insertion order
unchanged; and one successful collector iteration updates the history by
exactly this bounded append. -/
theorem C8_sample_history_bounded (xs : List Sample) (x : Sample)
    (h : xs.length ≤ STATS_HISTORY_MAX_POINTS) :
    (dequeAppend STATS_HISTORY_MAX_POINTS xs x).length ≤ STATS_HISTORY_MAX_POINTS ∧
    (xs.length = STATS_HISTORY_MAX_POINTS →
      dequeAppend STATS_HISTORY_MAX_POINTS xs x = xs.drop 1 ++ [x]) ∧
    (xs.length < STATS_HISTORY_MAX_POINTS →
      dequeAppend STATS_HISTORY_MAX_POINTS xs x = xs ++ [x]) ∧
    (∀ (t ld : Int) (now : String) (s : GlobalState),
      monitor_stats_iteration (.srcOk t) (.srcOk ld) none now s =
        .ok { s with stats_history :=
          dequeAppend STATS_HISTORY_MAX_POINTS s.stats_history ⟨now, t, ld⟩ }) := by
  refine ⟨?_, ?_, ?_, fun t ld now s => rfl⟩
  · unfold dequeAppend
    simp only [List.length_drop, List.length_append, List.length_singleton]
    omega
  · intro hfull
    have h1 : (xs ++ [x]).length - STATS_HISTORY_MAX_POINTS = 1 := by
      simp [hfull]
    simp only [dequeAppend]
    rw [h1]
    cases xs with
    | nil => simp [STATS_HISTORY_MAX_POINTS] at hfull
    | cons a as => simp
  · intro hlt
    have h1 : (xs ++ [x]).length - STATS_HISTORY_MAX_POINTS = 0 := by
      simp only [List.length_append, List.length_singleton]
      omega
    simp only [dequeAppend]
    rw [h1, List.drop_zero]

/-- C8 witness: the theorem applied at a buffer exactly at capacity. -/
theorem C8_witness :
    (List.replicate STATS_HISTORY_MAX_POINTS (⟨"t", 0, 0⟩ : Sample)).length ≤
        STATS_HISTORY_MAX_POINTS ∧
    ((dequeAppend STATS_HISTORY_MAX_POINTS
        (List.replicate STATS_HISTORY_MAX_POINTS ⟨"t", 0, 0⟩) ⟨"u", 1, 2⟩).length ≤
          STATS_HISTORY_MAX_POINTS ∧
      ((List.replicate STATS_HISTORY_MAX_POINTS (⟨"t", 0, 0⟩ : Sample)).length =
          STATS_HISTORY_MAX_POINTS →
        dequeAppend STATS_HISTORY_MAX_POINTS
            (List.replicate STATS_HISTORY_MAX_POINTS ⟨"t", 0, 0⟩) ⟨"u", 1, 2⟩ =
          (List.replicate STATS_HISTORY_MAX_POINTS (⟨"t", 0, 0⟩ : Sample)).drop 1 ++
            [⟨"u", 1, 2⟩]) ∧
      ((List.replicate STATS_HISTORY_MAX_POINTS (⟨"t", 0, 0⟩ : Sample)).length <
          STATS_HISTORY_MAX_POINTS →
        dequeAppend STATS_HISTORY_MAX_POINTS
            (List.replicate STATS_HISTORY_MAX_POINTS ⟨"t", 0, 0⟩) ⟨"u", 1, 2⟩ =
          List.replicate STATS_HISTORY_MAX_POINTS ⟨"t", 0, 0⟩ ++ [⟨"u", 1, 2⟩]) ∧
      (∀ (t ld : Int) (now : String) (s : GlobalState),
        monitor_stats_iteration (.srcOk t) (.srcOk ld) none now s =
          .ok { s with stats_history :=
            dequeAppend STATS_HISTORY_MAX_POINTS s.stats_history ⟨now, t, ld⟩ })) :=
  ⟨by simp,
   C8_sample_history_bounded (List.replicate STATS_HISTORY_MAX_POINTS ⟨"t", 0, 0⟩)
     ⟨"u", 1, 2⟩ (by simp)⟩

/-! ### C4: bounded event queue -/

theorem monitor_enqueue_le (s : GlobalState) (key : LineKey) (kind : Edge) (ts : String)
    (h : s.event_queue.length ≤ EVENT_QUEUE_MAX_SIZE) :
    (monitor_enqueue s key kind ts).event_queue.length ≤ EVENT_QUEUE_MAX_SIZE := by
  simp only [monitor_enqueue]
  split
  · simp only [List.length_append, List.length_singleton]
    omega
  · simpa using h

/-- C4 (amended): the EventQueue never exceeds its capacity of 1000 no
matter how many edge events the monitor produces; at capacity the enqueue
step drops the newest event, leaving every state component untouched
except the appended log warning (so the producer is never blocked). -/
theorem C4_event_queue_bounded (s : GlobalState) (evs : List (LineKey × Edge × String))
    (h : s.event_queue.length ≤ EVENT_QUEUE_MAX_SIZE) :
    (enqueueMany s evs).event_queue.length ≤ EVENT_QUEUE_MAX_SIZE ∧
    (∀ (key : LineKey) (kind : Edge) (ts : String),
      s.event_queue.length = EVENT_QUEUE_MAX_SIZE →
      monitor_enqueue s key kind ts =
        { s with log := s.log ++
            [⟨.infoL, "Interrupt on Pin " ++
                pyRepr ((alistGet s.reverse_pin_mapping key).getD (.pyStr "unknown")) ++
                ": " ++ (if kind = Edge.RISING then "Rising" else "Falling")⟩,
             ⟨.warnL, "Event queue full, dropping event for Pin " ++
                pyRepr ((alistGet s.reverse_pin_mapping key).getD (.pyStr "unknown"))⟩] }) := by
  constructor
  · induction evs generalizing s with
    | nil => exact h
    | cons ev rest ih =>
      obtain ⟨key, kind, ts⟩ := ev
      exact ih (monitor_enqueue s key kind ts) (monitor_enqueue_le s key kind ts h)
  · intro key kind ts hfull
    simp only [monitor_enqueue]
    have hnot : ¬ s.event_queue.length < EVENT_QUEUE_MAX_SIZE := by omega
    simp only [if_neg hnot]
    simp [List.append_assoc]

/-- C4 witness: the theorem applied at an empty queue and a three-event
sweep. -/
theorem C4_witness :
    (freshState .noPins).event_queue.length ≤ EVENT_QUEUE_MAX_SIZE ∧
    (enqueueMany (freshState .noPins)
        [(("/dev/gpiochip0", .pyInt 5), Edge.RISING, "1"),
         (("/dev/gpiochip0", .pyInt 5), Edge.FALLING, "2"),
         (("/dev/gpiochip0", .pyInt 6), Edge.RISING, "3")]).event_queue.length ≤
      EVENT_QUEUE_MAX_SIZE :=
  ⟨by decide,
   (C4_event_queue_bounded (freshState .noPins)
      [(("/dev/gpiochip0", .pyInt 5), Edge.RISING, "1"),
       (("/dev/gpiochip0", .pyInt 5), Edge.FALLING, "2"),
       (("/dev/gpiochip0", .pyInt 6), Edge.RISING, "3")] (by decide)).1⟩

/-- C4 counterexample: at a full queue the enqueue step changes the log and
nothing else — in particular no drop counter exists in the program state
(which carries every module-level mutable of src/main.py), refuting the
claim that a drop increments a drop counter. -/
theorem C4_counterexample :
    monitor_enqueue c4FullState ("/dev/gpiochip0", .pyInt 5) Edge.RISING "17" =
      { c4FullState with log :=
          [⟨.infoL, "Interrupt on Pin unknown: Rising"⟩,
           ⟨.warnL, "Event queue full, dropping event for Pin unknown"⟩] } := by
  have hfull : ¬ (c4FullState.event_queue.length < EVENT_QUEUE_MAX_SIZE) := by
    simp [c4FullState]
  simp [monitor_enqueue, hfull, c4FullState, alistGet, pyRepr]

/-! ### C10: the sample collector survives every non-cancellation fault -/

/-- C10: any exception other than the cancellation signal raised inside
one collector iteration — while reading a system source or appending the
sample — is caught by the handlers inside the loop body, so the iteration
always completes normally; the full step (iteration plus sleep) can only
terminate with the cancellation signal, delivered at the sleep point. -/
theorem C10_collector_never_crashes (tempSrc loadSrc : SrcOutcome)
    (appendFault : Option PyExc) (now : String) (cancelAtSleep : Bool) (s : GlobalState)
    (h : appendFault ≠ some PyExc.cancelledError) :
    (∃ s2, monitor_stats_iteration tempSrc loadSrc appendFault now s = .ok s2) ∧
    (∀ e s3, monitor_stats_step tempSrc loadSrc appendFault now cancelAtSleep s =
        .error (e, s3) → e = PyExc.cancelledError) := by
  have hiter : ∃ s2, monitor_stats_iteration tempSrc loadSrc appendFault now s = .ok s2 := by
    cases tempSrc <;> cases loadSrc <;>
      rcases appendFault with _ | e <;>
      first
      | exact ⟨_, rfl⟩
      | · have he : e ≠ PyExc.cancelledError := fun hh => h (by rw [hh])
          cases e <;>
            simp_all [monitor_stats_iteration, stats_body_inner, stats_read_temp,
              stats_read_load, catchException]
  obtain ⟨s2, hs2⟩ := hiter
  refine ⟨⟨s2, hs2⟩, ?_⟩
  intro e s3 hstep
  unfold monitor_stats_step at hstep
  rw [hs2] at hstep
  by_cases hc : cancelAtSleep <;> simp [hc] at hstep
  exact hstep.1.symm

/-- C10 witness: the theorem applied at an iteration where the temperature
read fails with an uncaught-by-the-inner-handler exception and the append
also faults. -/
theorem C10_witness :
    some (PyExc.otherError "boom") ≠ some PyExc.cancelledError ∧
    ((∃ s2, monitor_stats_iteration (.srcFailOther "oops") (.srcOk 1)
        (some (PyExc.otherError "boom")) "12:00:00" (freshState .noPins) = .ok s2) ∧
     (∀ e s3, monitor_stats_step (.srcFailOther "oops") (.srcOk 1)
        (some (PyExc.otherError "boom")) "12:00:00" true (freshState .noPins) =
          .error (e, s3) → e = PyExc.cancelledError)) :=
  ⟨by decide,
   C10_collector_never_crashes (.srcFailOther "oops") (.srcOk 1)
     (some (PyExc.otherError "boom")) "12:00:00" true (freshState .noPins) (by decide)⟩

/-! ### C9: supervisor restarts dead workers -/

/-- C9 (amended): within one supervisor iteration, a worker whose handle
is absent or terminated is replaced by a freshly launched instance; the
log distinguishes a crash (error entry with the exception text) from a
cancellation or silent stop (warning entry); the health snapshot's
interrupt-monitor liveness flag is true again afterwards.  (The health
snapshot exposes no liveness flag for the stats collector — see the
counterexample.) -/
theorem C9_supervisor_restart (s : GlobalState) (g gen : Nat) (m : String)
    (cMsg sMsg rMsg : String) (log : List LogEntry) :
    ((s.interrupt_task = .absent ∨ taskDone s.interrupt_task = true) →
      (monitor_task_health_iteration s).interrupt_task = .running s.nextTaskGen ∧
      (health_gpio_status (monitor_task_health_iteration s)).interrupt_monitor_running =
        true) ∧
    ((s.stats_task = .absent ∨ taskDone s.stats_task = true) →
      ∃ g2, (monitor_task_health_iteration s).stats_task = .running g2) ∧
    (superviseWorker cMsg sMsg rMsg (.doneError g m) gen log =
      (.running gen, gen + 1, log ++ [⟨.errorL, cMsg ++ m⟩, ⟨.infoL, rMsg⟩])) ∧
    (superviseWorker cMsg sMsg rMsg (.doneCancelled g) gen log =
      (.running gen, gen + 1, log ++ [⟨.warnL, sMsg⟩, ⟨.infoL, rMsg⟩])) ∧
    (superviseWorker cMsg sMsg rMsg .absent gen log =
      (.running gen, gen + 1, log ++ [⟨.infoL, rMsg⟩])) := by
  refine ⟨?_, ?_, ?_, ?_, ?_⟩
  · intro hd
    have h1 : (monitor_task_health_iteration s).interrupt_task = .running s.nextTaskGen := by
      unfold monitor_task_health_iteration superviseWorker
      rcases hd with hd | hd
      · simp [hd]
      · cases ht : s.interrupt_task <;> simp [ht, taskDone] at hd ⊢
    refine ⟨h1, ?_⟩
    simp [health_gpio_status, h1, taskTruthy, taskDone]
  · intro hd
    refine ⟨(superviseWorker "Interrupt monitor crashed with: "
      "Interrupt monitor stopped unexpectedly" "Restarting interrupt monitor..."
      s.interrupt_task s.nextTaskGen s.log).2.1, ?_⟩
    unfold monitor_task_health_iteration
    simp only
    unfold superviseWorker
    rcases hd with hd | hd
    · simp [hd]
    · cases ht : s.stats_task <;> simp [ht, taskDone] at hd ⊢
  · simp [superviseWorker, taskDone, taskTruthy]
  · simp [superviseWorker, taskDone, taskTruthy]
  · simp [superviseWorker, taskDone, taskTruthy]

/-- C9 witness: the theorem applied at a state whose interrupt monitor has
crashed and whose stats collector was cancelled. -/
theorem C9_witness :
    (c9WitState.interrupt_task = .absent ∨ taskDone c9WitState.interrupt_task = true) ∧
    ((monitor_task_health_iteration c9WitState).interrupt_task =
        .running c9WitState.nextTaskGen ∧
      (health_gpio_status (monitor_task_health_iteration c9WitState)).interrupt_monitor_running =
        true) ∧
    (∃ g2, (monitor_task_health_iteration c9WitState).stats_task = .running g2) ∧
    (superviseWorker "c: " "stopped" "restarting" (.doneError 0 "boom") 5 [] =
      (.running 5, 6, [⟨.errorL, "c: boom"⟩, ⟨.infoL, "restarting"⟩])) ∧
    (superviseWorker "c: " "stopped" "restarting" (.doneCancelled 0) 5 [] =
      (.running 5, 6, [⟨.warnL, "stopped"⟩, ⟨.infoL, "restarting"⟩])) ∧
    (superviseWorker "c: " "stopped" "restarting" .absent 5 [] =
      (.running 5, 6, [⟨.infoL, "restarting"⟩])) := by
  have h := C9_supervisor_restart c9WitState 0 5 "boom" "c: " "stopped" "restarting" []
  refine ⟨by decide, h.1 (by decide), h.2.1 (by decide), h.2.2.1, h.2.2.2.1, h.2.2.2.2⟩

/-- C9 counterexample: two states that differ only in the stats-collector
task status (crashed vs running) produce identical health snapshots — the
snapshot carries no liveness flag for the collector, so the claimed
"corresponding liveness flag" does not exist for that worker. -/
theorem C9_counterexample :
    health_gpio_status c9StateDead = health_gpio_status c9StateAlive ∧
    c9StateDead.stats_task ≠ c9StateAlive.stats_task ∧
    { c9StateDead with stats_task := c9StateAlive.stats_task } = c9StateAlive := by
  exact ⟨rfl, by decide, rfl⟩

/-! ### C6: failure taxonomy of set/toggle -/

/-- C6 (amended): `set_pin` and `toggle_pin` answer one and the same
`404 "Pin not active"` error both for a pin absent from `pin_mapping` and
for a mapped pin whose line is not claimed — the two cases are not
distinguished; only a failing hardware access on a claimed line is
answered distinctly, as a 500 carrying the exception text.  No state is
changed in any failure case. -/
theorem C6_result_taxonomy (env : HwEnv) (s : GlobalState) (n v : Int) :
    (alistGet s.pin_mapping (.pyInt n) = none →
      set_pin env s n v = (.httpError 404 "Pin not active", s) ∧
      toggle_pin env s n = (.httpError 404 "Pin not active", s)) ∧
    (∀ k, alistGet s.pin_mapping (.pyInt n) = some k →
      alistGet s.line_requests k = none →
      set_pin env s n v = (.httpError 404 "Pin not active", s) ∧
      toggle_pin env s n = (.httpError 404 "Pin not active", s)) ∧
    (∀ k h m, alistGet s.pin_mapping (.pyInt n) = some k →
      alistGet s.line_requests k = some h → env.writeErr k = some m →
      set_pin env s n v = (.httpError 500 m, s)) ∧
    (∀ k h m, alistGet s.pin_mapping (.pyInt n) = some k →
      alistGet s.line_requests k = some h → env.readErr k = some m →
      toggle_pin env s n = (.httpError 500 m, s)) := by
  refine ⟨?_, ?_, ?_, ?_⟩ <;> intros <;> simp_all [set_pin, toggle_pin]

/-- C6 witness: the theorem applied at the two-pin fixture state. -/
theorem C6_witness :
    alistGet c6State.pin_mapping (.pyInt 7) = none ∧
    (set_pin envAllOk c6State 7 1 = (.httpError 404 "Pin not active", c6State) ∧
     toggle_pin envAllOk c6State 7 = (.httpError 404 "Pin not active", c6State)) :=
  ⟨by decide, (C6_result_taxonomy envAllOk c6State 7 1).1 (by decide)⟩

/-- C6 counterexample: pin 7 is absent from the active configuration
(NotConfigured in the spec's taxonomy) while pin 9 is configured but
unclaimed (NotActive), yet `set_pin` and `toggle_pin` answer both with the
very same result — the claimed distinct typed results do not exist. -/
theorem C6_counterexample :
    set_pin envAllOk c6State 7 1 = set_pin envAllOk c6State 9 1 ∧
    toggle_pin envAllOk c6State 7 = toggle_pin envAllOk c6State 9 ∧
    set_pin envAllOk c6State 7 1 = (.httpError 404 "Pin not active", c6State) ∧
    alistGet c6State.pin_mapping (.pyInt 7) = none ∧
    alistGet c6State.pin_mapping (.pyInt 9) ≠ none ∧
    (pinsOf ((c6State.configFile).getD .noPins)).map (fun p => p.num) =
      [some (.pyInt 9)] := by
  exact ⟨rfl, rfl, rfl, rfl, by decide, rfl⟩

/-! ### C7: toggle writes the logical inverse -/

/-- C7: on a claimed pin carrying value `v ∈ {0, 1}` with working hardware
access, `toggle_pin` returns `1 - v` and leaves the line at `1 - v`; a
second toggle returns `v` again, so successive calls alternate. -/
theorem C7_toggle_inverts (env : HwEnv) (s : GlobalState) (n : Int) (k : LineKey)
    (h : ReqHandle) (v : Int)
    (hm : alistGet s.pin_mapping (.pyInt n) = some k)
    (hr : alistGet s.line_requests k = some h)
    (hv : h.value = v) (hv01 : v = 0 ∨ v = 1)
    (hre : env.readErr k = none) (hwe : env.writeErr k = none) :
    (toggle_pin env s n).1 = .okToggle n (1 - v) ∧
    alistGet (toggle_pin env s n).2.line_requests k = some { h with value := 1 - v } ∧
    (toggle_pin env (toggle_pin env s n).2 n).1 = .okToggle n v := by
  rcases hv01 with rfl | rfl
  · have hstep : toggle_pin env s n =
        (.okToggle n 1,
         { s with line_requests := alistSet s.line_requests k { h with value := 1 } }) := by
      simp [toggle_pin, hm, hr, hre, hwe, hv]
    rw [hstep]
    refine ⟨by norm_num, ?_, ?_⟩
    · have := alistGet_set_self s.line_requests k { h with value := 1 }
      simpa using this
    · have hget := alistGet_set_self s.line_requests k { h with value := 1 }
      simp [toggle_pin, hm, hget, hre, hwe]
  · have hstep : toggle_pin env s n =
        (.okToggle n 0,
         { s with line_requests := alistSet s.line_requests k { h with value := 0 } }) := by
      simp [toggle_pin, hm, hr, hre, hwe, hv]
    rw [hstep]
    refine ⟨by norm_num, ?_, ?_⟩
    · have := alistGet_set_self s.line_requests k { h with value := 0 }
      simpa using this
    · have hget := alistGet_set_self s.line_requests k { h with value := 0 }
      simp [toggle_pin, hm, hget, hre, hwe]

/-- C7 witness: the theorem applied at a freshly claimed output pin whose
line is inactive. -/
theorem C7_witness :
    alistGet c7State.pin_mapping (.pyInt 7) = some ("/dev/gpiochip0", .pyInt 5) ∧
    ((toggle_pin envAllOk c7State 7).1 = .okToggle 7 (1 - 0) ∧
     alistGet (toggle_pin envAllOk c7State 7).2.line_requests ("/dev/gpiochip0", .pyInt 5) =
       some { c7Handle with value := 1 - 0 } ∧
     (toggle_pin envAllOk (toggle_pin envAllOk c7State 7).2 7).1 = .okToggle 7 0) :=
  ⟨by decide,
   C7_toggle_inverts envAllOk c7State 7 ("/dev/gpiochip0", .pyInt 5) c7Handle 0
     (by decide) (by decide) (by decide) (Or.inl rfl) (by decide) (by decide)⟩

/-! ### update_config failure path -/

theorem update_config_error (env : HwEnv) (cfg : ConfigDoc) (s : GlobalState) (e : PyExc)
    (h : validate_gpio_config cfg = .error e) :
    (update_config env cfg s).2 = { s with log := (update_config env cfg s).2.log } ∧
    ∃ d, (update_config env cfg s).1 = .httpError 500 d := by
  unfold update_config
  rw [h]
  cases e <;> simp

theorem update_config_valueError (env : HwEnv) (cfg : ConfigDoc) (s : GlobalState)
    (m : String) (h : validate_gpio_config cfg = .error (.valueError m)) :
    (update_config env cfg s).1 = .httpError 500 ("400: " ++ m) := by
  unfold update_config
  rw [h]

/-! ### C2: update_config is atomic on validation failure -/

/-- C2: when the candidate configuration fails any validation check,
`update_config` answers an error and performs no side effect: the
persisted document, both registries, the claimed-line table, the queues
and the release ledger are unchanged (only the log grows), so `get_config`
and `get_status` answer exactly as before the call. -/
theorem C2_update_config_atomic (env env2 : HwEnv) (cfg : ConfigDoc) (s : GlobalState)
    (e : PyExc) (h : validate_gpio_config cfg = .error e) :
    (∃ d, (update_config env cfg s).1 = .httpError 500 d) ∧
    (update_config env cfg s).2.configFile = s.configFile ∧
    (update_config env cfg s).2.pin_mapping = s.pin_mapping ∧
    (update_config env cfg s).2.reverse_pin_mapping = s.reverse_pin_mapping ∧
    (update_config env cfg s).2.line_requests = s.line_requests ∧
    (update_config env cfg s).2.event_queue = s.event_queue ∧
    (update_config env cfg s).2.stats_history = s.stats_history ∧
    (update_config env cfg s).2.releaseTrace = s.releaseTrace ∧
    (update_config env cfg s).2.interrupt_task = s.interrupt_task ∧
    get_config (update_config env cfg s).2 = get_config s ∧
    get_status env2 (update_config env cfg s).2 = get_status env2 s := by
  obtain ⟨heq, hd⟩ := update_config_error env cfg s e h
  rw [heq]
  exact ⟨hd, rfl, rfl, rfl, rfl, rfl, rfl, rfl, rfl, rfl, rfl⟩

/-- C2 witness: the theorem applied at a document without a pins list,
against a state with one claimed pin. -/
theorem C2_witness :
    validate_gpio_config .noPins =
      .error (.valueError "Config must contain a \x27pins\x27 list.") ∧
    ((∃ d, (update_config envAllOk .noPins c7State).1 = .httpError 500 d) ∧
     (update_config envAllOk .noPins c7State).2.configFile = c7State.configFile ∧
     (update_config envAllOk .noPins c7State).2.pin_mapping = c7State.pin_mapping ∧
     (update_config envAllOk .noPins c7State).2.reverse_pin_mapping =
       c7State.reverse_pin_mapping ∧
     (update_config envAllOk .noPins c7State).2.line_requests = c7State.line_requests ∧
     (update_config envAllOk .noPins c7State).2.event_queue = c7State.event_queue ∧
     (update_config envAllOk .noPins c7State).2.stats_history = c7State.stats_history ∧
     (update_config envAllOk .noPins c7State).2.releaseTrace = c7State.releaseTrace ∧
     (update_config envAllOk .noPins c7State).2.interrupt_task = c7State.interrupt_task ∧
     get_config (update_config envAllOk .noPins c7State).2 = get_config c7State ∧
     get_status envAllFail (update_config envAllOk .noPins c7State).2 =
       get_status envAllFail c7State) :=
  ⟨rfl, C2_update_config_atomic envAllOk envAllFail .noPins c7State _ rfl⟩

/-! ### C5: duplicate hardware mapping -/

theorem checkPin_mkPinEntry_ok (sn : List Int) (sh : List (Int × Int)) (n c l : Int)
    (dir bias : String)
    (hdir : pyLowerStr dir ∈ valid_directions)
    (hbias : pyLowerStr bias ∈ valid_biases)
    (hn : n ∉ sn) (hw : (c, l) ∉ sh) :
    checkPin sn sh (mkPinEntry n c l dir bias) = .ok (sn ++ [n], sh ++ [(c, l)]) := by
  simp [checkPin, mkPinEntry, pinField, required_fields, numOrUnknown, pyLower,
    hn, hw, hdir, hbias]

theorem checkPin_dupHw (sn : List Int) (sh : List (Int × Int)) (n c l : Int)
    (dir bias : String)
    (hn : n ∉ sn) (hw : (c, l) ∈ sh) :
    checkPin sn sh (mkPinEntry n c l dir bias) =
      .error (.valueError ("Duplicate hardware mapping detected: Chip " ++
        toString c ++ ", Line " ++ toString l)) := by
  simp [checkPin, mkPinEntry, pinField, required_fields, numOrUnknown, hn, hw]

/-- C5 (amended): a configuration with two entries sharing the same
`(chip, line)` pair is rejected in its entirety by `update_config`; the
validation error names the duplicated chip and line (not the pin numbers)
and nothing besides the log changes. -/
theorem C5_duplicate_hw_rejected (env : HwEnv) (s : GlobalState) (n1 n2 c l : Int)
    (hne : n1 ≠ n2) :
    validate_gpio_config (.withPins [mkPinEntry n1 c l "output" "none",
        mkPinEntry n2 c l "input" "pull-up"]) =
      .error (.valueError ("Duplicate hardware mapping detected: Chip " ++
        toString c ++ ", Line " ++ toString l)) ∧
    (update_config env (.withPins [mkPinEntry n1 c l "output" "none",
        mkPinEntry n2 c l "input" "pull-up"]) s).1 =
      .httpError 500 ("400: " ++ ("Duplicate hardware mapping detected: Chip " ++
        toString c ++ ", Line " ++ toString l)) ∧
    (update_config env (.withPins [mkPinEntry n1 c l "output" "none",
        mkPinEntry n2 c l "input" "pull-up"]) s).2 =
      { s with log := (update_config env (.withPins [mkPinEntry n1 c l "output" "none",
        mkPinEntry n2 c l "input" "pull-up"]) s).2.log } := by
  have h1 : n1 ∉ ([] : List Int) := by simp
  have h1b : (c, l) ∉ ([] : List (Int × Int)) := by simp
  have h2 : n2 ∉ ([n1] : List Int) := by simp [Ne.symm hne]
  have h2b : (c, l) ∈ ([(c, l)] : List (Int × Int)) := by simp
  have hv : validate_gpio_config (.withPins [mkPinEntry n1 c l "output" "none",
      mkPinEntry n2 c l "input" "pull-up"]) =
      .error (.valueError ("Duplicate hardware mapping detected: Chip " ++
        toString c ++ ", Line " ++ toString l)) := by
    have hc1 := checkPin_mkPinEntry_ok [] [] n1 c l "output" "none"
      (by decide) (by decide) h1 h1b
    have hc2 := checkPin_dupHw [n1] [(c, l)] n2 c l "input" "pull-up" h2 h2b
    simp [validate_gpio_config, validateLoop, hc1, hc2]
  refine ⟨hv, update_config_valueError env _ s _ hv, (update_config_error env _ s _ hv).1⟩

/-- C5 witness: the theorem applied at the scenario document (pins 7 and 8
both on chip 0, line 5). -/
theorem C5_witness :
    (7 : Int) ≠ 8 ∧
    (validate_gpio_config (.withPins [mkPinEntry 7 0 5 "output" "none",
        mkPinEntry 8 0 5 "input" "pull-up"]) =
      .error (.valueError ("Duplicate hardware mapping detected: Chip " ++
        toString (0 : Int) ++ ", Line " ++ toString (5 : Int))) ∧
     (update_config envAllOk (.withPins [mkPinEntry 7 0 5 "output" "none",
        mkPinEntry 8 0 5 "input" "pull-up"]) c7State).1 =
      .httpError 500 ("400: " ++ ("Duplicate hardware mapping detected: Chip " ++
        toString (0 : Int) ++ ", Line " ++ toString (5 : Int))) ∧
     (update_config envAllOk (.withPins [mkPinEntry 7 0 5 "output" "none",
        mkPinEntry 8 0 5 "input" "pull-up"]) c7State).2 =
      { c7State with log := (update_config envAllOk (.withPins [mkPinEntry 7 0 5 "output" "none",
        mkPinEntry 8 0 5 "input" "pull-up"]) c7State).2.log }) :=
  ⟨by decide, C5_duplicate_hw_rejected envAllOk c7State 7 8 0 5 (by decide)⟩

/-- C5 counterexample: the rejection message for the scenario document is
exactly the duplicate-hardware text, and it mentions neither of the two
conflicting pin numbers (7 and 8) — refuting the claim that the error
names both pins. -/
theorem C5_counterexample :
    validate_gpio_config c5cfg = .error (.valueError c5msg) ∧
    strMentions c5msg "7" = false ∧
    strMentions c5msg "8" = false := by
  exact ⟨rfl, rfl, rfl⟩

/-! ### Injectivity of the decimal rendering used in `chip_path` keys -/

theorem decDigit_digitChar (d : Nat) (hd : d < 10) : decDigit (Nat.digitChar d) = d := by
  interval_cases d <;> decide

theorem toDigitsCore_append (fuel : Nat) : ∀ (n : Nat) (ds : List Char),
    Nat.toDigitsCore 10 fuel n ds = Nat.toDigitsCore 10 fuel n [] ++ ds := by
  induction fuel with
  | zero => intro n ds; simp [Nat.toDigitsCore]
  | succ fuel ih =>
    intro n ds
    simp only [Nat.toDigitsCore]
    by_cases h : n / 10 = 0
    · simp [h]
    · simp only [if_neg h]
      rw [ih (n / 10) (Nat.digitChar (n % 10) :: ds), ih (n / 10) [Nat.digitChar (n % 10)]]
      simp

theorem decNum_append_one (l : List Char) (c : Char) :
    decNum (l ++ [c]) = decNum l * 10 + decDigit c := by
  simp [decNum, List.foldl_append]

theorem decNum_toDigitsCore (fuel : Nat) : ∀ n : Nat, n < fuel →
    decNum (Nat.toDigitsCore 10 fuel n []) = n := by
  induction fuel with
  | zero => intro n h; omega
  | succ fuel ih =>
    intro n h
    simp only [Nat.toDigitsCore]
    by_cases h0 : n / 10 = 0
    · simp only [if_pos h0]
      have h10 : n % 10 < 10 := Nat.mod_lt _ (by norm_num)
      have hone : decNum [Nat.digitChar (n % 10)] = n % 10 := by
        simp [decNum, decDigit_digitChar _ h10]
      rw [hone]
      omega
    · simp only [if_neg h0]
      rw [toDigitsCore_append fuel (n / 10) [Nat.digitChar (n % 10)], decNum_append_one]
      have hdiv : n / 10 < fuel := by
        have h1 : n / 10 < n := Nat.div_lt_self (by omega) (by norm_num)
        omega
      rw [ih (n / 10) hdiv, decDigit_digitChar _ (Nat.mod_lt n (by omega))]
      omega

theorem Nat_repr_injective : Function.Injective Nat.repr := by
  intro n m h
  have hdata : Nat.toDigits 10 n = Nat.toDigits 10 m := by
    have := congrArg String.data h
    simpa [Nat.repr, List.asString] using this
  have h1 := decNum_toDigitsCore (n + 1) n (by omega)
  have h2 := decNum_toDigitsCore (m + 1) m (by omega)
  simp only [Nat.toDigits] at hdata
  rw [← h1, ← h2, hdata]

theorem digitChar_isDigit (d : Nat) (hd : d < 10) : (Nat.digitChar d).isDigit = true := by
  interval_cases d <;> decide

theorem toDigitsCore_all_digits (fuel : Nat) : ∀ (n : Nat) (ds : List Char),
    (∀ c ∈ ds, c.isDigit = true) → ∀ c ∈ Nat.toDigitsCore 10 fuel n ds, c.isDigit = true := by
  induction fuel with
  | zero => intro n ds hds; simpa [Nat.toDigitsCore] using hds
  | succ fuel ih =>
    intro n ds hds
    simp only [Nat.toDigitsCore]
    by_cases h : n / 10 = 0
    · simp only [if_pos h]
      intro c hc
      rcases List.mem_cons.mp hc with hc | hc
      · rw [hc]; exact digitChar_isDigit _ (Nat.mod_lt n (by omega) |>.trans_le (by omega))
      · exact hds c hc
    · simp only [if_neg h]
      refine ih (n / 10) _ ?_
      intro c hc
      rcases List.mem_cons.mp hc with hc | hc
      · rw [hc]; exact digitChar_isDigit _ (by omega)
      · exact hds c hc

theorem toDigitsCore_ne_nil (fuel : Nat) (hf : 0 < fuel) (n : Nat) (ds : List Char) :
    Nat.toDigitsCore 10 fuel n ds ≠ [] := by
  induction fuel generalizing n ds with
  | zero => omega
  | succ fuel ih =>
    simp only [Nat.toDigitsCore]
    by_cases h : n / 10 = 0
    · simp [h]
    · simp only [if_neg h]
      rcases Nat.eq_zero_or_pos fuel with hf0 | hf0
      · subst hf0; simp [Nat.toDigitsCore]
      · exact ih hf0 _ _

theorem Int_toString_injective : Function.Injective (fun i : Int => toString i) := by
  intro a b h
  simp only [toString] at h
  have hrepr : Int.repr a = Int.repr b := h
  have hnatDigit : ∀ k : Nat, ∀ c ∈ (Nat.repr k).data, c.isDigit = true := by
    intro k c hc
    simp only [Nat.repr, List.asString] at hc
    exact toDigitsCore_all_digits (k + 1) k [] (by simp) c hc
  have hne : ∀ k : Nat, (Nat.repr k).data ≠ [] := by
    intro k
    simp only [Nat.repr, List.asString]
    exact toDigitsCore_ne_nil (k + 1) (by omega) k []
  cases a with
  | ofNat m =>
    cases b with
    | ofNat k =>
      simp only [Int.repr] at hrepr
      rw [Nat_repr_injective hrepr]
    | negSucc k =>
      exfalso
      simp only [Int.repr] at hrepr
      have hdata := congrArg String.data hrepr
      rw [String.data_append] at hdata
      obtain ⟨c, cs, hcs⟩ := List.exists_cons_of_ne_nil (hne m)
      rw [hcs] at hdata
      have hminus : ("-" : String).data = ['-'] := rfl
      rw [hminus] at hdata
      have : c = '-' := by
        have hh := congrArg (fun l => l.head?) hdata
        simpa using hh
      have hd := hnatDigit m c (by rw [hcs]; exact List.mem_cons_self _ _)
      rw [this] at hd
      exact absurd hd (by decide)
  | negSucc m =>
    cases b with
    | ofNat k =>
      exfalso
      simp only [Int.repr] at hrepr
      have hdata := congrArg String.data hrepr
      rw [String.data_append] at hdata
      obtain ⟨c, cs, hcs⟩ := List.exists_cons_of_ne_nil (hne k)
      rw [hcs] at hdata
      have hminus : ("-" : String).data = ['-'] := rfl
      rw [hminus] at hdata
      have : c = '-' := by
        have hh := congrArg (fun l => l.head?) hdata
        simpa using hh.symm
      have hd := hnatDigit k c (by rw [hcs]; exact List.mem_cons_self _ _)
      rw [this] at hd
      exact absurd hd (by decide)
    | negSucc k =>
      simp only [Int.repr] at hrepr
      have hdata := congrArg String.data hrepr
      rw [String.data_append, String.data_append] at hdata
      have hminus : ("-" : String).data = ['-'] := rfl
      rw [hminus] at hdata
      have htail : (Nat.repr (m + 1)).data = (Nat.repr (k + 1)).data := by
        simpa using hdata
      have hstr : Nat.repr (m + 1) = Nat.repr (k + 1) := by
        cases hm : Nat.repr (m + 1)
        cases hk : Nat.repr (k + 1)
        simp_all
      have hmk : m = k := by
        have := Nat_repr_injective hstr
        omega
      rw [hmk]

theorem chip_path_injective (a b : Int)
    (h : "/dev/gpiochip" ++ toString a = "/dev/gpiochip" ++ toString b) : a = b := by
  have hdata := congrArg String.data h
  rw [String.data_append, String.data_append] at hdata
  have hcancel := List.append_cancel_left hdata
  have hstr : toString a = toString b := by
    cases ha : toString a
    cases hb : toString b
    simp_all
  exact Int_toString_injective hstr

/-! ### Facts guaranteed by validation -/

theorem ite_err2_ne_ok {A B : Prop} [Decidable A] [Decidable B] {x y z : PyExc}
    {r : List Int × List (Int × Int)} :
    (if A then (Except.error x : Except PyExc (List Int × List (Int × Int)))
     else if B then .error y else .error z) ≠ .ok r := by
  split
  · simp
  split
  · simp
  simp

theorem ite_err3_ne_ok {A B C : Prop} [Decidable A] [Decidable B] [Decidable C]
    {x y w z : PyExc} {r : List Int × List (Int × Int)} :
    (if A then (Except.error x : Except PyExc (List Int × List (Int × Int)))
     else if B then .error y else if C then .error w else .error z) ≠ .ok r := by
  split
  · simp
  split
  · simp
  split
  · simp
  simp

theorem checkPin_ok_facts (sn : List Int) (sh : List (Int × Int)) (p : PinEntry)
    (sn2 : List Int) (sh2 : List (Int × Int))
    (h : checkPin sn sh p = .ok (sn2, sh2)) :
    PinShape p ∧ sn2 = sn ++ [pNumI p] ∧ sh2 = sh ++ [pHwI p] ∧
    pNumI p ∉ sn ∧ pHwI p ∉ sh ∧ pDirStr p ∈ valid_directions := by
  obtain ⟨pn, pc, pl, pd, pb, pname⟩ := p
  rcases pn with _ | vn
  · exact absurd h (by simp [checkPin, pinField, required_fields, numOrUnknown])
  rcases pc with _ | vc
  · exact absurd h (by simp [checkPin, pinField, required_fields, numOrUnknown])
  rcases pl with _ | vl
  · exact absurd h (by simp [checkPin, pinField, required_fields, numOrUnknown])
  rcases pd with _ | vd
  · exact absurd h (by simp [checkPin, pinField, required_fields, numOrUnknown])
  rcases pb with _ | vb
  · exact absurd h (by simp [checkPin, pinField, required_fields, numOrUnknown])
  cases vn with
  | pyNone => exact absurd h (by simp [checkPin, pinField, required_fields])
  | pyStr sv => exact absurd h (by simp [checkPin, pinField, required_fields])
  | pyInt n =>
  cases vc with
  | pyNone => exact absurd h (by simp [checkPin, pinField, required_fields])
  | pyStr sv => exact absurd h (by simp [checkPin, pinField, required_fields])
  | pyInt c =>
  cases vl with
  | pyNone => exact absurd h (by simp [checkPin, pinField, required_fields])
  | pyStr sv => exact absurd h (by simp [checkPin, pinField, required_fields])
  | pyInt l =>
  cases vd with
  | pyNone =>
    exfalso
    simp only [checkPin, pinField, required_fields, pyLower, List.find?] at h
    exact absurd h ite_err2_ne_ok
  | pyInt dv =>
    exfalso
    simp only [checkPin, pinField, required_fields, pyLower, List.find?] at h
    exact absurd h ite_err2_ne_ok
  | pyStr d =>
  cases vb with
  | pyNone =>
    exfalso
    simp only [checkPin, pinField, required_fields, pyLower, List.find?] at h
    exact absurd h ite_err3_ne_ok
  | pyInt bv =>
    exfalso
    simp only [checkPin, pinField, required_fields, pyLower, List.find?] at h
    exact absurd h ite_err3_ne_ok
  | pyStr b =>
  simp only [checkPin, pinField, required_fields, pyLower, List.find?] at h
  simp only [PinShape, pNumI, pHwI, pDirStr]
  by_cases hnn : n ∈ sn
  · simp [hnn] at h
  by_cases hnh : (c, l) ∈ sh
  · simp [hnn, hnh] at h
  by_cases hdir : pyLowerStr d ∈ valid_directions
  · by_cases hbias : pyLowerStr b ∈ valid_biases
    · simp [hnn, hnh, hdir, hbias] at h
      exact ⟨⟨⟨n, rfl⟩, ⟨c, rfl⟩, ⟨l, rfl⟩, ⟨d, rfl⟩, ⟨b, rfl⟩⟩,
        h.1.symm, h.2.symm, hnn, hnh, hdir⟩
    · simp [hnn, hnh, hdir, hbias] at h
  · simp [hnn, hnh, hdir] at h

theorem validateLoop_facts : ∀ (ps : List PinEntry) (sn : List Int)
    (sh : List (Int × Int)) (b : Bool), validateLoop ps sn sh = .ok b →
    (∀ p ∈ ps, PinShape p ∧ pDirStr p ∈ valid_directions ∧
      pNumI p ∉ sn ∧ pHwI p ∉ sh) ∧
    List.Pairwise (fun p q => pNumI p ≠ pNumI q ∧ pHwI p ≠ pHwI q) ps := by
  intro ps
  induction ps with
  | nil => intro sn sh b _; exact ⟨by simp, by simp⟩
  | cons p rest ih =>
    intro sn sh b h
    unfold validateLoop at h
    cases hc : checkPin sn sh p with
    | error e => rw [hc] at h; exact absurd h (by simp)
    | ok r =>
      obtain ⟨sn2, sh2⟩ := r
      rw [hc] at h
      obtain ⟨hshape, hsn2, hsh2, hnn, hnh, hdir⟩ := checkPin_ok_facts _ _ _ _ _ hc
      have hrest := ih (sn ++ [pNumI p]) (sh ++ [pHwI p]) b (by rwa [hsn2, hsh2] at h)
      refine ⟨?_, ?_⟩
      · intro q hq
        rcases List.mem_cons.mp hq with rfl | hq
        · exact ⟨hshape, hdir, hnn, hnh⟩
        · obtain ⟨h1, h2, h3, h4⟩ := hrest.1 q hq
          exact ⟨h1, h2, fun hc2 => h3 (by simp [hc2]), fun hc2 => h4 (by simp [hc2])⟩
      · refine List.Pairwise.cons ?_ hrest.2
        intro q hq
        obtain ⟨_, _, h3, h4⟩ := hrest.1 q hq
        refine ⟨fun he => h3 (by simp [he]), fun he => h4 (by simp [he])⟩

/-! ### Characterization of the claim loop -/

theorem initLoop_spec (env : HwEnv) : ∀ (ps : List PinEntry) (s : GlobalState),
    (∀ p ∈ ps, PinShape p) →
    ∃ s2, initLoop env ps s = .ok s2 ∧
      s2.releaseTrace = s.releaseTrace ∧
      s2.configFile = s.configFile ∧
      s.nextHandle ≤ s2.nextHandle ∧
      (∀ key, (alistGet s2.line_requests key).isSome = true ↔
        ((alistGet s.line_requests key).isSome = true ∨
          ∃ p ∈ ps, pDirStr p ≠ "disabled" ∧ pKey p = key ∧ env.claimOk (pKey p) = true)) ∧
      (∀ pv, (alistGet s2.pin_mapping pv).isSome = true ↔
        ((alistGet s.pin_mapping pv).isSome = true ∨
          ∃ p ∈ ps, pDirStr p ≠ "disabled" ∧ (p.num).getD .pyNone = pv)) ∧
      (∀ kv ∈ s2.line_requests, kv ∈ s.line_requests ∨ s.nextHandle ≤ kv.2.hid) := by
  intro ps
  induction ps with
  | nil =>
    intro s _
    exact ⟨s, rfl, rfl, rfl, le_refl _, by simp, by simp, fun kv hkv => Or.inl hkv⟩
  | cons p rest ih =>
    intro s hps
    obtain ⟨pn, pc, pl, pd, pb, pname⟩ := p
    obtain ⟨⟨n, hn⟩, ⟨c, hc⟩, ⟨l, hl⟩, ⟨d, hd⟩, ⟨b, hb⟩⟩ := hps _ (List.mem_cons_self _ _)
    dsimp only at hn hc hl hd hb
    subst hn; subst hc; subst hl; subst hd; subst hb
    have hrest : ∀ q ∈ rest, PinShape q := fun q hq => hps q (List.mem_cons_of_mem _ hq)
    by_cases hdis : pyLowerStr d = "disabled"
    · obtain ⟨s2, hs2, htr, hcf, hnh, hreq, hmap, hmem⟩ :=
        ih { s with log := s.log ++ [⟨.infoL, "Pin " ++ pyRepr (PyVal.pyInt n) ++
          " is disabled, skipping hardware initialization."⟩] } hrest
      have hred : initLoop env
          (⟨some (.pyInt n), some (.pyInt c), some (.pyInt l), some (.pyStr d),
            some (.pyStr b), pname⟩ :: rest) s =
          initLoop env rest { s with log := s.log ++ [⟨.infoL, "Pin " ++
            pyRepr (PyVal.pyInt n) ++ " is disabled, skipping hardware initialization."⟩] } := by
        simp [initLoop, initPin, pyLower, hdis]
      refine ⟨s2, by rw [hred]; exact hs2, htr, hcf, hnh, ?_, ?_, ?_⟩
      · intro key
        rw [hreq key]
        dsimp only
        simp [List.mem_cons, pDirStr, hdis]
      · intro pv
        rw [hmap pv]
        dsimp only
        simp [List.mem_cons, pDirStr, hdis]
      · intro kv hkv
        exact hmem kv hkv
    · cases hclaim : env.claimOk ("/dev/gpiochip" ++ toString c, PyVal.pyInt l) with
      | true =>
        obtain ⟨s2, hs2, htr, hcf, hnh, hreq, hmap, hmem⟩ :=
          ih { s with
            pin_mapping := alistSet s.pin_mapping (PyVal.pyInt n)
              ("/dev/gpiochip" ++ toString c, PyVal.pyInt l),
            reverse_pin_mapping := alistSet s.reverse_pin_mapping
              ("/dev/gpiochip" ++ toString c, PyVal.pyInt l) (PyVal.pyInt n),
            line_requests := alistSet s.line_requests
              ("/dev/gpiochip" ++ toString c, PyVal.pyInt l)
              ⟨s.nextHandle,
               if pyLowerStr d = "output" then Direction.OUTPUT else Direction.INPUT,
               if pyLowerStr b = "pull-up" then Bias.PULL_UP
               else if pyLowerStr b = "pull-down" then Bias.PULL_DOWN
               else if pyLowerStr b = "disabled" then Bias.DISABLED
               else Bias.AS_IS,
               if (if pyLowerStr d = "output" then Direction.OUTPUT else Direction.INPUT) =
                   Direction.INPUT then Edge.BOTH else Edge.NONE,
               if (if pyLowerStr d = "output" then Direction.OUTPUT else Direction.INPUT) =
                   Direction.OUTPUT then 0
               else env.inputVal ("/dev/gpiochip" ++ toString c, PyVal.pyInt l)⟩,
            nextHandle := s.nextHandle + 1,
            log := s.log ++ [⟨.infoL, "Successfully requested Pin " ++
              pyRepr (PyVal.pyInt n) ++ " (" ++ pyLowerStr d ++ ") on " ++
              ("/dev/gpiochip" ++ toString c)⟩] } hrest
        have hred : initLoop env
            (⟨some (.pyInt n), some (.pyInt c), some (.pyInt l), some (.pyStr d),
              some (.pyStr b), pname⟩ :: rest) s =
            initLoop env rest
              { s with
                pin_mapping := alistSet s.pin_mapping (PyVal.pyInt n)
                  ("/dev/gpiochip" ++ toString c, PyVal.pyInt l),
                reverse_pin_mapping := alistSet s.reverse_pin_mapping
                  ("/dev/gpiochip" ++ toString c, PyVal.pyInt l) (PyVal.pyInt n),
                line_requests := alistSet s.line_requests
                  ("/dev/gpiochip" ++ toString c, PyVal.pyInt l)
                  ⟨s.nextHandle,
                   if pyLowerStr d = "output" then Direction.OUTPUT else Direction.INPUT,
                   if pyLowerStr b = "pull-up" then Bias.PULL_UP
                   else if pyLowerStr b = "pull-down" then Bias.PULL_DOWN
                   else if pyLowerStr b = "disabled" then Bias.DISABLED
                   else Bias.AS_IS,
                   if (if pyLowerStr d = "output" then Direction.OUTPUT else Direction.INPUT) =
                       Direction.INPUT then Edge.BOTH else Edge.NONE,
                   if (if pyLowerStr d = "output" then Direction.OUTPUT else Direction.INPUT) =
                       Direction.OUTPUT then 0
                   else env.inputVal ("/dev/gpiochip" ++ toString c, PyVal.pyInt l)⟩,
                nextHandle := s.nextHandle + 1,
                log := s.log ++ [⟨.infoL, "Successfully requested Pin " ++
                  pyRepr (PyVal.pyInt n) ++ " (" ++ pyLowerStr d ++ ") on " ++
                  ("/dev/gpiochip" ++ toString c)⟩] } := by
          simp [initLoop, initPin, pyLower, hdis, pyRepr, hclaim]
        refine ⟨s2, by rw [hred]; exact hs2, htr, hcf, ?_, ?_, ?_, ?_⟩
        · dsimp only at hnh
          omega
        · intro key
          rw [hreq key]
          dsimp only
          rw [alistGet_set_isSome]
          simp only [List.mem_cons]
          constructor
          · rintro ((h1 | h1) | h1)
            · refine Or.inr ⟨_, Or.inl rfl, ?_, ?_, ?_⟩
              · simpa [pDirStr] using hdis
              · simpa [pKey, pyRepr] using h1.symm
              · simpa [pKey, pyRepr] using hclaim
            · exact Or.inl h1
            · obtain ⟨q, hq, hqp⟩ := h1
              exact Or.inr ⟨q, Or.inr hq, hqp⟩
          · rintro (h1 | ⟨q, hq | hq, hq2, hq3, hq4⟩)
            · exact Or.inl (Or.inr h1)
            · subst hq
              simp [pKey, pyRepr] at hq3
              exact Or.inl (Or.inl hq3.symm)
            · exact Or.inr ⟨q, hq, hq2, hq3, hq4⟩
        · intro pv
          rw [hmap pv]
          dsimp only
          rw [alistGet_set_isSome]
          simp only [List.mem_cons]
          constructor
          · rintro ((h1 | h1) | h1)
            · refine Or.inr ⟨_, Or.inl rfl, ?_, ?_⟩
              · simpa [pDirStr] using hdis
              · simpa using h1.symm
            · exact Or.inl h1
            · obtain ⟨q, hq, hqp⟩ := h1
              exact Or.inr ⟨q, Or.inr hq, hqp⟩
          · rintro (h1 | ⟨q, hq | hq, hq2, hq3⟩)
            · exact Or.inl (Or.inr h1)
            · subst hq
              dsimp only at hq3
              exact Or.inl (Or.inl hq3.symm)
            · exact Or.inr ⟨q, hq, hq2, hq3⟩
        · intro kv hkv
          rcases hmem kv hkv with h1 | h1
          · rcases alistSet_mem _ _ _ _ h1 with h2 | h2
            · exact Or.inl h2
            · right
              rw [h2]
          · right
            dsimp only at h1
            omega
      | false =>
        obtain ⟨s2, hs2, htr, hcf, hnh, hreq, hmap, hmem⟩ :=
          ih { s with
            pin_mapping := alistSet s.pin_mapping (PyVal.pyInt n)
              ("/dev/gpiochip" ++ toString c, PyVal.pyInt l),
            reverse_pin_mapping := alistSet s.reverse_pin_mapping
              ("/dev/gpiochip" ++ toString c, PyVal.pyInt l) (PyVal.pyInt n),
            log := s.log ++ [⟨.errorL, "Failed to request Pin " ++
              pyRepr (PyVal.pyInt n) ++ " (" ++ pyLowerStr d ++ ") on " ++
              ("/dev/gpiochip" ++ toString c) ++ ": " ++
              env.claimErr ("/dev/gpiochip" ++ toString c, PyVal.pyInt l)⟩] } hrest
        have hred : initLoop env
            (⟨some (.pyInt n), some (.pyInt c), some (.pyInt l), some (.pyStr d),
              some (.pyStr b), pname⟩ :: rest) s =
            initLoop env rest
              { s with
                pin_mapping := alistSet s.pin_mapping (PyVal.pyInt n)
                  ("/dev/gpiochip" ++ toString c, PyVal.pyInt l),
                reverse_pin_mapping := alistSet s.reverse_pin_mapping
                  ("/dev/gpiochip" ++ toString c, PyVal.pyInt l) (PyVal.pyInt n),
                log := s.log ++ [⟨.errorL, "Failed to request Pin " ++
                  pyRepr (PyVal.pyInt n) ++ " (" ++ pyLowerStr d ++ ") on " ++
                  ("/dev/gpiochip" ++ toString c) ++ ": " ++
                  env.claimErr ("/dev/gpiochip" ++ toString c, PyVal.pyInt l)⟩] } := by
          simp [initLoop, initPin, pyLower, hdis, pyRepr, hclaim]
        refine ⟨s2, by rw [hred]; exact hs2, htr, hcf, hnh, ?_, ?_, ?_⟩
        · intro key
          rw [hreq key]
          dsimp only
          simp only [List.mem_cons]
          constructor
          · rintro (h1 | h1)
            · exact Or.inl h1
            · obtain ⟨q, hq, hqp⟩ := h1
              exact Or.inr ⟨q, Or.inr hq, hqp⟩
          · rintro (h1 | ⟨q, hq | hq, hq2, hq3, hq4⟩)
            · exact Or.inl h1
            · subst hq
              simp [pKey, pyRepr] at hq4
              rw [hq4] at hclaim
              exact absurd hclaim (by simp)
            · exact Or.inr ⟨q, hq, hq2, hq3, hq4⟩
        · intro pv
          rw [hmap pv]
          dsimp only
          rw [alistGet_set_isSome]
          simp only [List.mem_cons]
          constructor
          · rintro ((h1 | h1) | h1)
            · refine Or.inr ⟨_, Or.inl rfl, ?_, ?_⟩
              · simpa [pDirStr] using hdis
              · simpa using h1.symm
            · exact Or.inl h1
            · obtain ⟨q, hq, hqp⟩ := h1
              exact Or.inr ⟨q, Or.inr hq, hqp⟩
          · rintro (h1 | ⟨q, hq | hq, hq2, hq3⟩)
            · exact Or.inl (Or.inr h1)
            · subst hq
              dsimp only at hq3
              exact Or.inl (Or.inl hq3.symm)
            · exact Or.inr ⟨q, hq, hq2, hq3⟩
        · intro kv hkv
          exact hmem kv hkv

theorem init_gpios_spec (env : HwEnv) (s : GlobalState) (ps : List PinEntry)
    (hcf : s.configFile = some (ConfigDoc.withPins ps))
    (hshapes : ∀ p ∈ ps, PinShape p) :
    ∃ s2, init_gpios env s = .ok s2 ∧
      s2.releaseTrace = s.releaseTrace ∧
      s2.configFile = s.configFile ∧
      s.nextHandle ≤ s2.nextHandle ∧
      (∀ key, (alistGet s2.line_requests key).isSome = true ↔
        ((alistGet s.line_requests key).isSome = true ∨
          ∃ p ∈ ps, pDirStr p ≠ "disabled" ∧ pKey p = key ∧ env.claimOk (pKey p) = true)) ∧
      (∀ pv, (alistGet s2.pin_mapping pv).isSome = true ↔
        ((alistGet s.pin_mapping pv).isSome = true ∨
          ∃ p ∈ ps, pDirStr p ≠ "disabled" ∧ (p.num).getD .pyNone = pv)) ∧
      (∀ kv ∈ s2.line_requests, kv ∈ s.line_requests ∨ s.nextHandle ≤ kv.2.hid) := by
  have hred : init_gpios env s =
      initLoop env ps { s with log := s.log ++ [⟨.infoL, "Initialising GPIOs..."⟩] } := by
    simp [init_gpios, ensure_config_exists, hcf, pinsOf]
  obtain ⟨s2, h1, h2, h3, h4, h5, h6, h7⟩ :=
    initLoop_spec env ps { s with log := s.log ++ [⟨.infoL, "Initialising GPIOs..."⟩] } hshapes
  exact ⟨s2, by rw [hred]; exact h1, h2, h3, h4, h5, h6, h7⟩

/-! ### C3: hot reload releases the old generation exactly once -/

/-- C3: a successful `update_config` (hot reload) appends to the provider
release ledger exactly the handles of the previous generation, once each
and in table order; the reloaded claimed-line table holds only handles of
the new generation (identities at or above the old `nextHandle`), so no
physical handle is claimed by two generations and no previously claimed
line is leaked. -/
theorem C3_hot_reload_releases_once (env : HwEnv) (cfg : ConfigDoc) (s : GlobalState)
    (hv : validate_gpio_config cfg = .ok true)
    (hhid : ∀ kv ∈ s.line_requests, kv.2.hid < s.nextHandle) :
    (update_config env cfg s).1 =
      .okMsg "success" "Configuration updated and hardware reloaded" ∧
    (update_config env cfg s).2.releaseTrace =
      s.releaseTrace ++ s.line_requests.map (fun kv => kv.2.hid) ∧
    (∀ kv ∈ (update_config env cfg s).2.line_requests, s.nextHandle ≤ kv.2.hid) ∧
    (∀ kvOld ∈ s.line_requests, ∀ kvNew ∈ (update_config env cfg s).2.line_requests,
      kvOld.2.hid ≠ kvNew.2.hid) := by
  obtain ⟨ps, rfl⟩ : ∃ ps, cfg = ConfigDoc.withPins ps := by
    cases cfg with
    | noPins => exact absurd hv (by simp [validate_gpio_config])
    | withPins ps => exact ⟨ps, rfl⟩
  have hshapes : ∀ p ∈ ps, PinShape p := by
    intro p hp
    exact ((validateLoop_facts ps [] [] true hv).1 p hp).1
  have hrel_cf : (release_gpios { s with configFile := some (ConfigDoc.withPins ps), log := s.log ++ [⟨.infoL, "Configuration updated via API. Reloading hardware..."⟩] }).configFile = some (ConfigDoc.withPins ps) := rfl
  obtain ⟨s3, hinit, htr, hcf3, hnh, hkeys, hmapc, hmem⟩ :=
    init_gpios_spec env (release_gpios { s with configFile := some (ConfigDoc.withPins ps), log := s.log ++ [⟨.infoL, "Configuration updated via API. Reloading hardware..."⟩] }) ps hrel_cf hshapes
  have hfinal : update_config env (ConfigDoc.withPins ps) s =
      (.okMsg "success" "Configuration updated and hardware reloaded", { s3 with interrupt_task := TaskStatus.running s3.nextTaskGen, nextTaskGen := s3.nextTaskGen + 1 }) := by
    unfold update_config
    rw [hv]
    dsimp only
    rw [hinit]
  rw [hfinal]
  have htr2 : s3.releaseTrace =
      s.releaseTrace ++ s.line_requests.map (fun kv => kv.2.hid) := htr
  have hmem2 : ∀ kv ∈ s3.line_requests, s.nextHandle ≤ kv.2.hid := by
    intro kv hkv
    rcases hmem kv hkv with h1 | h1
    · exact absurd h1 (by simp [release_gpios])
    · exact h1
  refine ⟨rfl, htr2, hmem2, ?_⟩
  intro kvOld hOld kvNew hNew
  have h1 := hhid kvOld hOld
  have h2 := hmem2 kvNew hNew
  omega

/-- C3 witness: the theorem applied at a state with one claimed pin and a
fresh one-pin configuration. -/
theorem C3_witness :
    validate_gpio_config (.withPins [mkPinEntry 9 1 2 "output" "none"]) = .ok true ∧
    (∀ kv ∈ c7State.line_requests, kv.2.hid < c7State.nextHandle) ∧
    ((update_config envAllOk (.withPins [mkPinEntry 9 1 2 "output" "none"]) c7State).1 =
        .okMsg "success" "Configuration updated and hardware reloaded" ∧
      (update_config envAllOk (.withPins [mkPinEntry 9 1 2 "output" "none"])
          c7State).2.releaseTrace =
        c7State.releaseTrace ++ c7State.line_requests.map (fun kv => kv.2.hid) ∧
      (∀ kv ∈ (update_config envAllOk (.withPins [mkPinEntry 9 1 2 "output" "none"])
          c7State).2.line_requests, c7State.nextHandle ≤ kv.2.hid) ∧
      (∀ kvOld ∈ c7State.line_requests,
        ∀ kvNew ∈ (update_config envAllOk (.withPins [mkPinEntry 9 1 2 "output" "none"])
          c7State).2.line_requests, kvOld.2.hid ≠ kvNew.2.hid)) :=
  ⟨rfl, by decide,
   C3_hot_reload_releases_once envAllOk (.withPins [mkPinEntry 9 1 2 "output" "none"])
     c7State rfl (by decide)⟩

/-! ### C1: registry contents after initialize -/

/-- C1 (amended): after a successful `init_gpios` over a validated
configuration from a clean state, the claimed-line table contains exactly
the addresses of the non-disabled pins whose hardware claim succeeded,
while the LineRegistry (`pin_mapping`) contains every non-disabled pin —
including those whose claim failed; a disabled pin appears in neither. -/
theorem C1_registry_after_initialize (env : HwEnv) (cfg : ConfigDoc) (s s2 : GlobalState)
    (hv : validate_gpio_config cfg = .ok true)
    (hcf : s.configFile = some cfg)
    (hlr : s.line_requests = []) (hpm : s.pin_mapping = [])
    (hinit : init_gpios env s = .ok s2) :
    (∀ key, (alistGet s2.line_requests key).isSome = true ↔
      ∃ p ∈ pinsOf cfg, pDirStr p ≠ "disabled" ∧ pKey p = key ∧ env.claimOk (pKey p) = true) ∧
    (∀ pv, (alistGet s2.pin_mapping pv).isSome = true ↔
      ∃ p ∈ pinsOf cfg, pDirStr p ≠ "disabled" ∧ (p.num).getD .pyNone = pv) ∧
    (∀ p ∈ pinsOf cfg, pDirStr p = "disabled" →
      alistGet s2.pin_mapping ((p.num).getD .pyNone) = none ∧
      alistGet s2.line_requests (pKey p) = none) := by
  obtain ⟨ps, rfl⟩ : ∃ ps, cfg = ConfigDoc.withPins ps := by
    cases cfg with
    | noPins => exact absurd hv (by simp [validate_gpio_config])
    | withPins ps => exact ⟨ps, rfl⟩
  have hfacts := validateLoop_facts ps [] [] true hv
  have hshapes : ∀ p ∈ ps, PinShape p := fun p hp => (hfacts.1 p hp).1
  obtain ⟨s2, h1, h2, h3, h4, h5, h6, h7⟩ := init_gpios_spec env s ps hcf hshapes
  rw [hinit] at h1
  injection h1 with hh
  subst hh
  have hkeys : ∀ key, (alistGet s2.line_requests key).isSome = true ↔
      ∃ p ∈ ps, pDirStr p ≠ "disabled" ∧ pKey p = key ∧ env.claimOk (pKey p) = true := by
    intro key
    rw [h5 key, hlr]
    simp [alistGet]
  have hmapchar : ∀ pv, (alistGet s2.pin_mapping pv).isSome = true ↔
      ∃ p ∈ ps, pDirStr p ≠ "disabled" ∧ (p.num).getD .pyNone = pv := by
    intro pv
    rw [h6 pv, hpm]
    simp [alistGet]
  have hsymm : Symmetric (fun p q : PinEntry => pNumI p ≠ pNumI q ∧ pHwI p ≠ pHwI q) :=
    fun a b h => ⟨Ne.symm h.1, Ne.symm h.2⟩
  refine ⟨hkeys, hmapchar, ?_⟩
  intro p hp hdisp
  constructor
  · cases hx : alistGet s2.pin_mapping ((p.num).getD .pyNone) with
    | none => rfl
    | some w =>
      exfalso
      have hsome : (alistGet s2.pin_mapping ((p.num).getD .pyNone)).isSome = true := by
        rw [hx]; rfl
      obtain ⟨q, hq, hqdis, hqeq⟩ := (hmapchar _).mp hsome
      have hpq : q ≠ p := fun he => hqdis (he ▸ hdisp)
      obtain ⟨⟨np, hnp⟩, -, -, -, -⟩ := hshapes p hp
      obtain ⟨⟨nq, hnq⟩, -, -, -, -⟩ := hshapes q hq
      have hnum : pNumI q = pNumI p := by
        rw [hnp, hnq] at hqeq
        dsimp only [Option.getD] at hqeq
        injection hqeq with hv2
        simp [pNumI, hnp, hnq, hv2]
      have hR := List.Pairwise.forall hsymm hfacts.2 hq hp hpq
      exact hR.1 hnum
  · cases hx : alistGet s2.line_requests (pKey p) with
    | none => rfl
    | some w =>
      exfalso
      have hsome : (alistGet s2.line_requests (pKey p)).isSome = true := by
        rw [hx]; rfl
      obtain ⟨q, hq, hqdis, hqkey, hqclaim⟩ := (hkeys _).mp hsome
      have hpq : q ≠ p := fun he => hqdis (he ▸ hdisp)
      obtain ⟨⟨np, hnp⟩, ⟨cp, hcp⟩, ⟨lp, hlp⟩, -, -⟩ := hshapes p hp
      obtain ⟨⟨nq, hnq⟩, ⟨cq, hcq⟩, ⟨lq, hlq⟩, -, -⟩ := hshapes q hq
      have hkeq : ("/dev/gpiochip" ++ toString cq, PyVal.pyInt lq) =
          (("/dev/gpiochip" ++ toString cp : String), PyVal.pyInt lp) := by
        have := hqkey
        simp only [pKey, hcq, hlq, hcp, hlp] at this
        dsimp only [Option.getD, pyRepr] at this
        exact this
      have hpath : ("/dev/gpiochip" ++ toString cq : String) =
          "/dev/gpiochip" ++ toString cp := congrArg Prod.fst hkeq
      have hline : PyVal.pyInt lq = PyVal.pyInt lp := congrArg Prod.snd hkeq
      have hceq : cq = cp := chip_path_injective cq cp hpath
      injection hline with hleq
      have hhw : pHwI q = pHwI p := by
        simp [pHwI, hcq, hlq, hcp, hlp, hceq, hleq]
      have hR := List.Pairwise.forall hsymm hfacts.2 hq hp hpq
      exact hR.2 hhw

/-- C1 witness: the theorem applied at the two-pin fixture where every
claim fails. -/
theorem C1_witness :
    validate_gpio_config c1cfg = .ok true ∧
    (freshState c1cfg).configFile = some c1cfg ∧
    (freshState c1cfg).line_requests = [] ∧
    (freshState c1cfg).pin_mapping = [] ∧
    init_gpios envAllFail (freshState c1cfg) = .ok c1FailedState ∧
    ((∀ key, (alistGet c1FailedState.line_requests key).isSome = true ↔
        ∃ p ∈ pinsOf c1cfg, pDirStr p ≠ "disabled" ∧ pKey p = key ∧
          envAllFail.claimOk (pKey p) = true) ∧
     (∀ pv, (alistGet c1FailedState.pin_mapping pv).isSome = true ↔
        ∃ p ∈ pinsOf c1cfg, pDirStr p ≠ "disabled" ∧ (p.num).getD .pyNone = pv) ∧
     (∀ p ∈ pinsOf c1cfg, pDirStr p = "disabled" →
        alistGet c1FailedState.pin_mapping ((p.num).getD .pyNone) = none ∧
        alistGet c1FailedState.line_requests (pKey p) = none)) :=
  ⟨rfl, rfl, rfl, rfl, rfl,
   C1_registry_after_initialize envAllFail c1cfg (freshState c1cfg) c1FailedState
     rfl rfl rfl rfl rfl⟩

/-- C1 counterexample: with the fixture configuration and a provider where
every claim fails, pin 7 — whose claim attempt failed — still appears in
the LineRegistry (`pin_mapping`), refuting the claim that a failed-claim
pin does not appear in the registry.  (The claimed-line table is empty, as
expected.) -/
theorem C1_counterexample :
    validate_gpio_config c1cfg = .ok true ∧
    init_gpios envAllFail (freshState c1cfg) = .ok c1FailedState ∧
    envAllFail.claimOk ("/dev/gpiochip0", .pyInt 5) = false ∧
    alistGet c1FailedState.pin_mapping (.pyInt 7) = some ("/dev/gpiochip0", .pyInt 5) ∧
    alistGet c1FailedState.line_requests ("/dev/gpiochip0", .pyInt 5) = none :=
  ⟨rfl, rfl, rfl, rfl, rfl⟩

end Gpio
